import Mathlib

/-!
# Verification of the street/building filtering and reporting layer of
  `simple_enhanced_tools.py` (BranitzMultiAgent)

This file shallowly embeds the glue logic of the repository's tool layer:
the street index (`get_all_street_names`), the building-ID lookup
(`get_building_ids_for_street`), the per-street filter used inside
`run_comprehensive_hp_analysis` / `run_comprehensive_dh_analysis`, the
metrics merge and summary statistics, the dashboard/summary templates, the
results lister's extension-based categorization, and the
`compare_comprehensive_scenarios` composition.

Modelling conventions:
* Python strings are Lean `String`s; `str.strip()` is `pyStrip` (ASCII
  whitespace, both ends), `str.lower()` is `pyLower`.
* A JSON address entry `{"str": ...}` is `AddressEntry`; a missing key is
  `none`.  Python truthiness of an optional string is "present and
  non-empty".
* Pandas `NaN` cells are `Option ℚ` with `none` for `NaN`; column
  statistics (`max`, `min`, `mean` with `skipna`) operate on the known
  values only.
* A Python exception propagating out of a function is `Except.error`;
  fallible external steps (file reads/writes, the external
  `street_final_copy_3` collaborators) are inputs of an environment
  structure, each an `Except String _` or `Option _` describing its
  outcome.
-/

/-- Boolean: does the character list `p` occur at the start of `l`?
(Left-to-right scan, mirrors a byte-wise comparison.) -/
def listStarts : List Char → List Char → Bool
  | [], _ => true
  | _ :: _, [] => false
  | p :: ps, c :: cs => p == c && listStarts ps cs

/-- `strStarts s p`: does string `s` start with the pattern `p`?
Mirrors Python's `str.startswith`. -/
def strStarts (s p : String) : Bool :=
  listStarts p.data s.data

/-- `pyEnds s p`: does string `s` end with `p`?  Mirrors Python's
`str.endswith`, realized on the reversed character lists. -/
def pyEnds (s p : String) : Bool :=
  listStarts p.data.reverse s.data.reverse

/-- The whitespace characters removed by `str.strip()` (ASCII part). -/
def isPyWhitespace (c : Char) : Bool :=
  c = ' ' || c = '\t' || c = '\n' || c = '\r' || c = '\x0b' || c = '\x0c'

/-- Character-list version of `str.strip()`: drop whitespace from both
ends. -/
def stripChars (l : List Char) : List Char :=
  ((l.dropWhile isPyWhitespace).reverse.dropWhile isPyWhitespace).reverse

/-- Python `str.strip()`. -/
def pyStrip (s : String) : String :=
  ⟨stripChars s.data⟩

/-- Python `str.replace(" ", "_")` as used on street names for file
names. -/
def pyUnderscore (s : String) : String :=
  ⟨s.data.map (fun c => if c = ' ' then '_' else c)⟩

/-- Python `str.lower()` (character-wise lowering). -/
def pyLower (s : String) : String :=
  ⟨s.data.map Char.toLower⟩

/-- Round a rational to the nearest integer, ties to even (the rounding
used by Python's fixed-point float formatting). -/
def roundHalfEven (q : ℚ) : ℤ :=
  let f := ⌊q⌋
  let r := q - (f : ℚ)
  if r < 1 / 2 then f
  else if 1 / 2 < r then f + 1
  else if f % 2 = 0 then f else f + 1

/-- Left-pad a string with `'0'` to width `w`. -/
def padZeros (w : ℕ) (s : String) : String :=
  ⟨List.replicate (w - s.length) '0'⟩ ++ s

/-- Python's `f"{x:.pf}"` fixed-point formatting of a (rational-valued)
number with `prec` decimals: scale, round half-to-even, print sign,
integer part, and zero-padded fractional part (no decimal point when
`prec = 0`). -/
def fmtFixed (prec : ℕ) (q : ℚ) : String :=
  let n := roundHalfEven (q * ((10 : ℚ) ^ prec))
  if prec = 0 then toString n
  else
    let base : ℕ := 10 ^ prec
    let sgn := if n < 0 then "-" else ""
    sgn ++ toString (n.natAbs / base) ++ "." ++ padZeros prec (toString (n.natAbs % base))

/-! ## Data model

`Feature`: one GeoJSON feature of `hausumringe_mit_adressenV3.geojson`,
with its `adressen` list (each entry's `str` field) and its
`gebaeude.oi` identifier. -/

/-- One entry of a feature's `adressen` list; `street` is the value of its
`"str"` key (`none` when the key is missing). -/
structure AddressEntry where
  street : Option String
deriving Repr, DecidableEq

/-- One GeoJSON feature: the parsed `adressen` records and the
`gebaeude.oi` identifier (`none` when absent). -/
structure Feature where
  adressen : List AddressEntry
  oi : Option String
deriving Repr, DecidableEq

/-- Outcome of opening and parsing the main data file, the input the two
street tools branch on: the file may be missing (`FileNotFoundError`),
unparsable (`json.JSONDecodeError` or a missing `features` key), or good. -/
inductive LoadResult where
  | notFound : LoadResult
  | malformed : LoadResult
  | ok : List Feature → LoadResult

/-! ## Address Index: `get_all_street_names` -/

/-- The street values collected from one `adressen` list: each truthy
(present, non-empty) `str` value, stripped.  Mirrors the inner loop of
`get_all_street_names`. -/
def entryStreets : List AddressEntry → List String
  | [] => []
  | a :: rest =>
    match a.street with
    | some v => if v ≠ "" then pyStrip v :: entryStreets rest else entryStreets rest
    | none => entryStreets rest

/-- All collected street values across the feature list (the contents of
the `street_names` set, as a list with duplicates). -/
def collectStreets : List Feature → List String
  | [] => []
  | f :: fs => entryStreets f.adressen ++ collectStreets fs

/-- Core of `get_all_street_names` on parsed data: deduplicate the
collected street values and sort them (Python's `sorted(list(set))`,
realized as insertion sort over the deduplicated list; the result is the
same canonical sorted duplicate-free sequence). -/
def getAllStreetNamesCore (fs : List Feature) : List String :=
  List.insertionSort (· ≤ ·) (collectStreets fs).dedup

/-- The tool `get_all_street_names`: `FileNotFoundError` is caught and
reported as a one-element `"Error: ..."` list; any other exception (for
example a JSON decode error) propagates (`Except.error`). -/
def get_all_street_names : LoadResult → Except String (List String)
  | .notFound => .ok ["Error: The main data file was not found at the specified path."]
  | .malformed => .error "json.JSONDecodeError: the main data file is not valid JSON"
  | .ok fs => .ok (getAllStreetNamesCore fs)

/-! ## Street Filter: `get_building_ids_for_street` -/

/-- The match test of `get_building_ids_for_street` for one address
entry against the normalized query `q`: the entry's `str` value must be
truthy and its stripped, lowercased form must equal `q`. -/
def gbEntryMatches (q : String) (a : AddressEntry) : Bool :=
  match a.street with
  | some v => v ≠ "" && pyLower (pyStrip v) == q
  | none => false

/-- The inner `for adr in feature.get("adressen", [])` loop with its
`break`: on the first matching entry, contribute the feature's `oi` if it
is truthy, then stop; otherwise keep scanning. -/
def processAddrs (q : String) (oi : Option String) : List AddressEntry → List String
  | [] => []
  | a :: rest =>
    if gbEntryMatches q a then
      match oi with
      | some o => if o ≠ "" then [o] else []
      | none => []
    else processAddrs q oi rest

/-- The outer loop of `get_building_ids_for_street`, accumulating the
per-feature contributions in feature order. -/
def getBuildingIdsAux (q : String) : List Feature → List String
  | [] => []
  | f :: fs => processAddrs q f.oi f.adressen ++ getBuildingIdsAux q fs

/-- Core of `get_building_ids_for_street` on parsed data: normalize the
query (`street_name.strip().lower()`) and scan all features. -/
def getBuildingIdsCore (fs : List Feature) (street_name : String) : List String :=
  getBuildingIdsAux (pyLower (pyStrip street_name)) fs

/-- The tool `get_building_ids_for_street`: same error envelope as
`get_all_street_names`. -/
def get_building_ids_for_street : LoadResult → String → Except String (List String)
  | .notFound, _ => .ok ["Error: The main data file was not found at the specified path."]
  | .malformed, _ => .error "json.JSONDecodeError: the main data file is not valid JSON"
  | .ok fs, street_name => .ok (getBuildingIdsCore fs street_name)

/-! ## Per-street analysis filter and Result Aggregator
(`run_comprehensive_hp_analysis`, also reused by the DH analysis) -/

/-- A row of the buildings GeoDataFrame as the comprehensive analyses see
it: the raw `adressen` cell is JSON text, so reading it can fail
(`json.loads` inside `try/except` — `.error` models a decode failure for
that row); `gebaeude` and `id` are the identifier cells used by the
metrics merge; the three distance columns are filled by the external
proximity step, `none` modelling a `NaN` cell. -/
instance decEqExceptAddrs : DecidableEq (Except Unit (List AddressEntry)) := fun a b =>
  match a, b with
  | .ok x, .ok y =>
    if h : x = y then isTrue (by rw [h]) else isFalse (by simp [h])
  | .error x, .error y => isTrue (by cases x; cases y; rfl)
  | .ok _, .error _ => isFalse (by simp)
  | .error _, .ok _ => isFalse (by simp)

structure HpBuilding where
  adressen : Except Unit (List AddressEntry)
  gebaeude : Option String
  id : Option String
  dist_to_line : Option ℚ
  dist_to_transformer : Option ℚ
  dist_to_substation : Option ℚ
deriving Repr, DecidableEq

/-- The inner address loop of the street filter in
`run_comprehensive_hp_analysis` / `run_comprehensive_dh_analysis`:
`street_val = addr.get('str', '')`, match when the value is truthy and
`street_val.lower() == street_name.lower()` (no stripping), short-circuit
on the first match. -/
def hpAddrLoop (street_name : String) : List AddressEntry → Bool
  | [] => false
  | a :: rest =>
    let v := a.street.getD ""
    if v ≠ "" && pyLower v == pyLower street_name then true else hpAddrLoop street_name rest

/-- Does a building row belong to the street, as the comprehensive
analyses decide it?  A row whose `adressen` cell fails to decode is
skipped (`except ... continue`). -/
def hpStreetMatch (street_name : String) (b : HpBuilding) : Bool :=
  match b.adressen with
  | .ok addrs => hpAddrLoop street_name addrs
  | .error _ => false

/-- The street filter of the comprehensive analyses: keep the rows whose
address list matches, in dataframe order. -/
def hpFilterBuildings (bs : List HpBuilding) (street_name : String) : List HpBuilding :=
  bs.filter (hpStreetMatch street_name)

/-- The per-building electrical metrics returned by
`compute_power_feasibility` (a dict keyed by building ID). -/
structure PowerMetric where
  max_loading : ℚ
  min_voltage : ℚ
deriving Repr, DecidableEq

/-- The two columns written by the metrics merge; `none` is the `np.nan`
written when the ID has no entry in `power_metrics`. -/
structure MergedRow where
  max_trafo_loading : Option ℚ
  min_voltage_pu : Option ℚ
deriving Repr, DecidableEq

/-- The identifier used to look a building up in the metrics dict:
`building.get('gebaeude', building.get('id', str(idx)))`. -/
def buildingKey (idx : ℕ) (b : HpBuilding) : String :=
  match b.gebaeude with
  | some g => g
  | none =>
    match b.id with
    | some i => i
    | none => toString idx

/-- The metrics merge loop of `run_comprehensive_hp_analysis`
(lines 336-343): for each row in order, write the metrics when the key is
present, `np.nan` (here `none`) otherwise. -/
def mergeMetrics (metrics : List (String × PowerMetric)) : ℕ → List HpBuilding → List MergedRow
  | _, [] => []
  | idx, b :: rest =>
    (match List.lookup (buildingKey idx b) metrics with
     | some m => ⟨some m.max_loading, some m.min_voltage⟩
     | none => ⟨none, none⟩) :: mergeMetrics metrics (idx + 1) rest

/-- The values of a column that are not `NaN` (what pandas statistics
with `skipna` operate on). -/
def knownVals (col : List (Option ℚ)) : List ℚ :=
  col.filterMap (fun x => x)

/-- `float(col.max()) if not col.isna().all() else fallback`: the maximum
over the known values, or the fallback when every value is `NaN`. -/
def statMax (col : List (Option ℚ)) (fallback : ℚ) : ℚ :=
  match knownVals col with
  | [] => fallback
  | x :: xs => xs.foldl max x

/-- `float(col.min()) if not col.isna().all() else fallback`. -/
def statMin (col : List (Option ℚ)) (fallback : ℚ) : ℚ :=
  match knownVals col with
  | [] => fallback
  | x :: xs => xs.foldl min x

/-- `float(col.mean()) if not col.isna().all() else fallback`: the mean of
the known values, or the fallback when every value is `NaN`. -/
def statMean (col : List (Option ℚ)) (fallback : ℚ) : ℚ :=
  match knownVals col with
  | [] => fallback
  | x :: xs => (x :: xs).sum / ((x :: xs).length : ℚ)

/-- The `stats` dict of `run_comprehensive_hp_analysis` (lines 376-382):
note the numeric defaults taken when a whole column is `NaN`. -/
structure HpStats where
  MaxTrafoLoading : ℚ
  MinVoltagePU : ℚ
  AvgDistLine : ℚ
  AvgDistTransformer : ℚ
  BuildingsCount : ℕ
deriving Repr, DecidableEq

/-- Build the `stats` dict from the merged metric rows and the filtered
buildings. -/
def hpStatsOf (rows : List MergedRow) (bs : List HpBuilding) : HpStats where
  MaxTrafoLoading := statMax (rows.map (·.max_trafo_loading)) 0
  MinVoltagePU := statMin (rows.map (·.min_voltage_pu)) 1
  AvgDistLine := statMean (bs.map (·.dist_to_line)) 0
  AvgDistTransformer := statMean (bs.map (·.dist_to_transformer)) 0
  BuildingsCount := bs.length

/-! ## The street index as the specification describes it
(for the refinement comparison of claim C9) -/

/-- Street values of one `adressen` list as the spec sentence describes
the collection step: every entry's street value, trimmed — with no
truthiness filter.  This definition follows the claim's words, to be
compared against `entryStreets` (translated from the code). -/
def entryStreetsSpec : List AddressEntry → List String
  | [] => []
  | a :: rest =>
    match a.street with
    | some v => pyStrip v :: entryStreetsSpec rest
    | none => entryStreetsSpec rest

/-- All street values across the features, as the spec describes it. -/
def collectStreetsSpec : List Feature → List String
  | [] => []
  | f :: fs => entryStreetsSpec f.adressen ++ collectStreetsSpec fs

/-- `list_streets` as the spec describes it: read every address entry's
street value, trim, deduplicate, sort.  To be compared with
`getAllStreetNamesCore`. -/
def specListStreets (fs : List Feature) : List String :=
  List.insertionSort (· ≤ ·) (collectStreetsSpec fs).dedup

/-! ## Helper lemmas: `strip` is idempotent -/

lemma dropWhile_dropWhile (p : Char → Bool) (l : List Char) :
    (l.dropWhile p).dropWhile p = l.dropWhile p := by
  induction l with
  | nil => rfl
  | cons a t ih =>
    by_cases h : p a
    · simp [List.dropWhile_cons, h, ih]
    · simp [List.dropWhile_cons, h]

lemma dropWhile_append_self (p : Char → Bool) (a b : List Char)
    (h : (a ++ b).dropWhile p = a ++ b) : a.dropWhile p = a := by
  cases a with
  | nil => rfl
  | cons x t =>
    by_cases h1 : p x
    · exfalso
      rw [List.cons_append, List.dropWhile_cons, if_pos h1] at h
      have hle : ((t ++ b).dropWhile p).length ≤ (t ++ b).length :=
        (List.dropWhile_suffix p).sublist.length_le
      rw [h] at hle
      simp at hle
    · simp [List.dropWhile_cons, h1]

lemma stripChars_dropWhile (l : List Char) :
    (stripChars l).dropWhile isPyWhitespace = stripChars l := by
  unfold stripChars
  obtain ⟨t, ht⟩ :=
    List.dropWhile_suffix (l := (l.dropWhile isPyWhitespace).reverse) isPyWhitespace
  have hm : l.dropWhile isPyWhitespace =
      ((l.dropWhile isPyWhitespace).reverse.dropWhile isPyWhitespace).reverse ++ t.reverse := by
    have := congrArg List.reverse ht
    simpa [List.reverse_append] using this.symm
  exact dropWhile_append_self isPyWhitespace _ t.reverse
    (by rw [← hm]; exact dropWhile_dropWhile _ _)

lemma stripChars_reverse_dropWhile (l : List Char) :
    (stripChars l).reverse.dropWhile isPyWhitespace = (stripChars l).reverse := by
  unfold stripChars
  rw [List.reverse_reverse]
  exact dropWhile_dropWhile _ _

lemma stripChars_idem (l : List Char) : stripChars (stripChars l) = stripChars l := by
  have hdef : stripChars (stripChars l) =
      (((stripChars l).dropWhile isPyWhitespace).reverse.dropWhile isPyWhitespace).reverse :=
    rfl
  rw [hdef, stripChars_dropWhile, stripChars_reverse_dropWhile, List.reverse_reverse]

lemma pyStrip_idem (s : String) : pyStrip (pyStrip s) = pyStrip s := by
  simp [pyStrip, stripChars_idem]

/-! ## Helper lemmas: membership characterizations -/

lemma mem_entryStreets {addrs : List AddressEntry} {s : String} :
    s ∈ entryStreets addrs ↔
      ∃ a ∈ addrs, ∃ v, a.street = some v ∧ v ≠ "" ∧ pyStrip v = s := by
  induction addrs with
  | nil => simp [entryStreets]
  | cons a rest ih =>
    cases ha : a.street with
    | none => simp [entryStreets, ha, ih, List.mem_cons]
    | some v =>
      by_cases hv : v = ""
      · subst hv
        simp only [entryStreets, ha, ne_eq, not_true_eq_false, if_false, ih, List.mem_cons]
        constructor
        · rintro ⟨a', h1, rest'⟩; exact ⟨a', Or.inr h1, rest'⟩
        · rintro ⟨a', h1 | h1, v', hv', rest'⟩
          · subst h1; rw [ha] at hv'
            cases hv'
            simp at rest'
          · exact ⟨a', h1, v', hv', rest'⟩
      · simp only [entryStreets, ha, ne_eq, hv, not_false_eq_true, if_true, List.mem_cons, ih]
        constructor
        · rintro (h1 | ⟨a', h1, rest'⟩)
          · exact ⟨a, Or.inl rfl, v, ha, hv, h1.symm⟩
          · exact ⟨a', Or.inr h1, rest'⟩
        · rintro ⟨a', h1 | h1, v', hv', hv'', hs⟩
          · subst h1; rw [ha] at hv'; cases hv'; exact Or.inl hs.symm
          · exact Or.inr ⟨a', h1, v', hv', hv'', hs⟩

lemma mem_collectStreets {fs : List Feature} {s : String} :
    s ∈ collectStreets fs ↔ ∃ f ∈ fs, s ∈ entryStreets f.adressen := by
  induction fs with
  | nil => simp [collectStreets]
  | cons f rest ih =>
    simp only [collectStreets, List.mem_append, ih, List.mem_cons]
    constructor
    · rintro (h | ⟨f', h1, h2⟩)
      · exact ⟨f, Or.inl rfl, h⟩
      · exact ⟨f', Or.inr h1, h2⟩
    · rintro ⟨f', h1 | h1, h2⟩
      · subst h1; exact Or.inl h2
      · exact Or.inr ⟨f', h1, h2⟩

lemma mem_getAllStreetNamesCore {fs : List Feature} {s : String} :
    s ∈ getAllStreetNamesCore fs ↔
      ∃ f ∈ fs, ∃ a ∈ f.adressen, ∃ v, a.street = some v ∧ v ≠ "" ∧ pyStrip v = s := by
  unfold getAllStreetNamesCore
  rw [(List.perm_insertionSort _ _).mem_iff, List.mem_dedup, mem_collectStreets]
  simp [mem_entryStreets]

lemma gbEntryMatches_iff {q : String} {a : AddressEntry} :
    gbEntryMatches q a = true ↔
      ∃ v, a.street = some v ∧ v ≠ "" ∧ pyLower (pyStrip v) = q := by
  cases ha : a.street with
  | none => simp [gbEntryMatches, ha]
  | some v => simp [gbEntryMatches, ha]

lemma processAddrs_eq (q : String) (oi : Option String) (addrs : List AddressEntry) :
    processAddrs q oi addrs =
      if addrs.any (gbEntryMatches q) then
        (match oi with
         | some o => if o ≠ "" then [o] else []
         | none => [])
      else [] := by
  induction addrs with
  | nil => simp [processAddrs]
  | cons a rest ih =>
    by_cases h : gbEntryMatches q a
    · simp [processAddrs, h, List.any_cons]
    · simp [processAddrs, h, List.any_cons, ih]

lemma mem_getBuildingIdsAux {q : String} {fs : List Feature} {o : String} :
    o ∈ getBuildingIdsAux q fs ↔
      ∃ f ∈ fs, f.adressen.any (gbEntryMatches q) = true ∧ f.oi = some o ∧ o ≠ "" := by
  induction fs with
  | nil => simp [getBuildingIdsAux]
  | cons f rest ih =>
    simp only [getBuildingIdsAux, List.mem_append, ih, processAddrs_eq, List.mem_cons]
    constructor
    · rintro (h | ⟨f', h1, h2⟩)
      · by_cases hany : f.adressen.any (gbEntryMatches q)
        · rw [if_pos hany] at h
          cases hoi : f.oi with
          | none => rw [hoi] at h; simp at h
          | some o' =>
            rw [hoi] at h
            by_cases ho' : o' = ""
            · subst ho'; simp at h
            · simp only [ne_eq, ho', not_false_eq_true, if_true, List.mem_singleton] at h
              subst h
              exact ⟨f, Or.inl rfl, hany, hoi, ho'⟩
        · rw [if_neg hany] at h; simp at h
      · exact ⟨f', Or.inr h1, h2⟩
    · rintro ⟨f', h1 | h1, hany, hoi, ho⟩
      · subst h1
        refine Or.inl ?_
        rw [if_pos hany, hoi]
        simp [ho]
      · exact Or.inr ⟨f', h1, hany, hoi, ho⟩

lemma hpAddrLoop_iff {q : String} {addrs : List AddressEntry} :
    hpAddrLoop q addrs = true ↔
      ∃ a ∈ addrs, a.street.getD "" ≠ "" ∧ pyLower (a.street.getD "") = pyLower q := by
  induction addrs with
  | nil => simp [hpAddrLoop]
  | cons a rest ih =>
    by_cases h : a.street.getD "" ≠ "" ∧ pyLower (a.street.getD "") = pyLower q
    · simp only [hpAddrLoop, List.mem_cons]
      rw [if_pos (by simp [h.1, h.2])]
      simp only [true_iff]
      exact ⟨a, Or.inl rfl, h⟩
    · simp only [hpAddrLoop, List.mem_cons]
      rw [if_neg (by
        intro hc
        simp only [Bool.and_eq_true, ne_eq, decide_eq_true_eq, beq_iff_eq] at hc
        exact h ⟨by simpa using hc.1, hc.2⟩)]
      rw [ih]
      constructor
      · rintro ⟨a', h1, h2⟩; exact ⟨a', Or.inr h1, h2⟩
      · rintro ⟨a', h1 | h1, h2⟩
        · subst h1; exact absurd h2 h
        · exact ⟨a', h1, h2⟩

/-! ## Claim C9 -/

/-- C9 (counterexample): the claim says the street listing reads **every**
address entry's street value, trims it, deduplicates and sorts.  On a
feature whose single address entry has the explicit street value `""`,
that description (`specListStreets`, written from the claim's words)
yields `[""]`, but the code (`getAllStreetNamesCore`) skips falsy street
values (`if street_val:`) and returns `[]`. -/
theorem c9_counterexample :
    specListStreets [⟨[⟨some ""⟩], none⟩] = [""] ∧
    getAllStreetNamesCore [⟨[⟨some ""⟩], none⟩] = [] := by
  constructor <;> rfl

/-- C9 (amended): the street listing reads every **truthy** (present and
non-empty) address entry street value across all features, trims it,
deduplicates, and returns a lexicographically sorted sequence in which
every name occurs exactly once: the result is strictly sorted, duplicate
free, and contains exactly the trimmed non-empty street values. -/
theorem c9_street_index_sorted_unique : ∀ fs : List Feature,
    (getAllStreetNamesCore fs).Sorted (· < ·) ∧
    (getAllStreetNamesCore fs).Nodup ∧
    ∀ s, s ∈ getAllStreetNamesCore fs ↔
      ∃ f ∈ fs, ∃ a ∈ f.adressen, ∃ v, a.street = some v ∧ v ≠ "" ∧ pyStrip v = s := by
  intro fs
  have hnd : (getAllStreetNamesCore fs).Nodup :=
    (List.perm_insertionSort _ _).nodup_iff.mpr (List.nodup_dedup _)
  have hsorted : (getAllStreetNamesCore fs).Sorted (· ≤ ·) :=
    List.sorted_insertionSort _ _
  exact ⟨hsorted.lt_of_le hnd, hnd, fun s => mem_getAllStreetNamesCore⟩

/-! ## Claim C4 -/

/-- C4 (counterexample): a feature whose only address entry names street
`"Main St"` but whose `gebaeude` record has no (truthy) `oi` identifier
puts `"Main St"` into the street index while the building-ID lookup for
`"Main St"` returns the empty list — contradicting the claim that every
indexed street has a non-empty lookup result. -/
theorem c4_counterexample :
    getAllStreetNamesCore [⟨[⟨some "Main St"⟩], none⟩] = ["Main St"] ∧
    getBuildingIdsCore [⟨[⟨some "Main St"⟩], none⟩] "Main St" = [] := by
  constructor <;> rfl

/-- C4 (amended): for every street name in the index there is a feature
matching the normalized query; if additionally some matching feature has a
truthy `oi` identifier, the lookup is non-empty.  For every query that
matches no feature after normalization, the lookup returns the empty list
(and, being a total function, never raises). -/
theorem c4_lookup_vs_index (fs : List Feature) (name : String) :
    (name ∈ getAllStreetNamesCore fs →
      ∃ f ∈ fs, f.adressen.any (gbEntryMatches (pyLower (pyStrip name))) = true) ∧
    ((∃ f ∈ fs, f.adressen.any (gbEntryMatches (pyLower (pyStrip name))) = true ∧
        ∃ o, f.oi = some o ∧ o ≠ "") →
      getBuildingIdsCore fs name ≠ []) ∧
    ((∀ f ∈ fs, f.adressen.any (gbEntryMatches (pyLower (pyStrip name))) = false) →
      getBuildingIdsCore fs name = []) := by
  refine ⟨?_, ?_, ?_⟩
  · intro hmem
    obtain ⟨f, hf, a, ha, v, hv, hne, hstrip⟩ := mem_getAllStreetNamesCore.mp hmem
    refine ⟨f, hf, List.any_eq_true.mpr ⟨a, ha, ?_⟩⟩
    rw [gbEntryMatches_iff]
    exact ⟨v, hv, hne, by rw [← hstrip, pyStrip_idem]⟩
  · rintro ⟨f, hf, hany, o, hoi, ho⟩
    exact List.ne_nil_of_mem (mem_getBuildingIdsAux.mpr ⟨f, hf, hany, hoi, ho⟩)
  · intro hnone
    rw [List.eq_nil_iff_forall_not_mem]
    intro o hmem
    obtain ⟨f, hf, hany, _, _⟩ := mem_getBuildingIdsAux.mp hmem
    rw [hnone f hf] at hany
    exact Bool.false_ne_true hany

/-- C4 (witness): at a concrete feature list, an indexed street with a
truthy identifier yields a non-empty lookup, and an unmatched query yields
the empty list. -/
theorem c4_lookup_vs_index_witness :
    getBuildingIdsCore [⟨[⟨some "Main St"⟩], some "B1"⟩] "Main St" ≠ [] ∧
    getBuildingIdsCore [⟨[⟨some "Main St"⟩], some "B1"⟩] "Elm Way" = [] := by
  constructor
  · exact (c4_lookup_vs_index [⟨[⟨some "Main St"⟩], some "B1"⟩] "Main St").2.1
      ⟨⟨[⟨some "Main St"⟩], some "B1"⟩, by simp, by decide, "B1", rfl, by decide⟩
  · refine (c4_lookup_vs_index [⟨[⟨some "Main St"⟩], some "B1"⟩] "Elm Way").2.2 ?_
    intro f hf
    have hfe : f = ⟨[⟨some "Main St"⟩], some "B1"⟩ := by simpa using hf
    subst hfe
    decide

/-! ## Claim C5 -/

/-- C5 (counterexample): two distinct features carrying the same
identifier `"B1"` and the same street both contribute, so the identifier
appears twice in the result — contradicting the claim's "no building
identifier is duplicated within a result" over every input collection. -/
theorem c5_counterexample :
    getBuildingIdsCore
        [⟨[⟨some "A"⟩], some "B1"⟩, ⟨[⟨some "A"⟩], some "B1"⟩] "A" = ["B1", "B1"] ∧
    ¬ (getBuildingIdsCore
        [⟨[⟨some "A"⟩], some "B1"⟩, ⟨[⟨some "A"⟩], some "B1"⟩] "A").Nodup := by
  constructor
  · rfl
  · decide

/-- C5 (amended): the filter short-circuits on the first matching address
entry per feature, so each feature contributes at most one identifier
(a building with N duplicate matching entries appears exactly once, as
the concrete third conjunct shows); identifiers can repeat in a result
only when distinct features carry the same identifier. -/
theorem c5_at_most_once_per_feature :
    (∀ (q : String) (oi : Option String) (addrs : List AddressEntry),
      (processAddrs q oi addrs).length ≤ 1) ∧
    (∀ (fs : List Feature) (name : String),
      (getBuildingIdsCore fs name).length ≤ fs.length) ∧
    getBuildingIdsCore
      [⟨[⟨some "A"⟩, ⟨some "A"⟩, ⟨some "A"⟩], some "B1"⟩] "A" = ["B1"] := by
  have hlen : ∀ (q : String) (oi : Option String) (addrs : List AddressEntry),
      (processAddrs q oi addrs).length ≤ 1 := by
    intro q oi addrs
    rw [processAddrs_eq]
    by_cases h : addrs.any (gbEntryMatches q)
    · rw [if_pos h]
      cases oi with
      | none => simp
      | some o => by_cases ho : o = "" <;> simp [ho]
    · rw [if_neg h]; simp
  refine ⟨hlen, ?_, rfl⟩
  intro fs name
  unfold getBuildingIdsCore
  induction fs with
  | nil => simp [getBuildingIdsAux]
  | cons f rest ih =>
    simp only [getBuildingIdsAux, List.length_append, List.length_cons]
    have := hlen (pyLower (pyStrip name)) f.oi f.adressen
    omega

/-! ## Claim C3 -/

/-- C3 (counterexample): for the stored street value `"Main "` (trailing
blank) and the query `"Main"`, the trimmed case-folded forms coincide, and
the building-ID lookup matches — but the per-street analysis filter of the
comprehensive analyses does **not** (it lowercases without stripping), so
street matching is not whitespace-trimmed in both places as claimed. -/
theorem c3_counterexample :
    pyLower (pyStrip "Main ") = pyLower (pyStrip "Main") ∧
    getBuildingIdsCore [⟨[⟨some "Main "⟩], some "B1"⟩] "Main" = ["B1"] ∧
    hpFilterBuildings [⟨.ok [⟨some "Main "⟩], some "B1", none, none, none, none⟩] "Main"
      = [] := by
  refine ⟨by decide, rfl, rfl⟩

/-- C3 (amended): the building-ID lookup matches exactly the entries whose
stripped, lowercased street equals the stripped, lowercased query (exact
after that normalization, no substring matching); the per-street analysis
filter matches exactly the rows with an entry whose lowercased —
**untrimmed** — street equals the lowercased query. -/
theorem c3_matching_semantics :
    (∀ (fs : List Feature) (name o : String),
      o ∈ getBuildingIdsCore fs name ↔
        ∃ f ∈ fs, f.oi = some o ∧ o ≠ "" ∧
          ∃ a ∈ f.adressen, ∃ v, a.street = some v ∧ v ≠ "" ∧
            pyLower (pyStrip v) = pyLower (pyStrip name)) ∧
    (∀ (bs : List HpBuilding) (name : String) (b : HpBuilding),
      b ∈ hpFilterBuildings bs name ↔
        b ∈ bs ∧ ∃ addrs, b.adressen = .ok addrs ∧
          ∃ a ∈ addrs, a.street.getD "" ≠ "" ∧
            pyLower (a.street.getD "") = pyLower name) := by
  constructor
  · intro fs name o
    rw [getBuildingIdsCore, mem_getBuildingIdsAux]
    constructor
    · rintro ⟨f, hf, hany, hoi, ho⟩
      obtain ⟨a, ha, hm⟩ := List.any_eq_true.mp hany
      obtain ⟨v, hv, hne, hl⟩ := gbEntryMatches_iff.mp hm
      exact ⟨f, hf, hoi, ho, a, ha, v, hv, hne, hl⟩
    · rintro ⟨f, hf, hoi, ho, a, ha, v, hv, hne, hl⟩
      exact ⟨f, hf, List.any_eq_true.mpr ⟨a, ha, gbEntryMatches_iff.mpr ⟨v, hv, hne, hl⟩⟩,
        hoi, ho⟩
  · intro bs name b
    rw [hpFilterBuildings, List.mem_filter]
    refine and_congr_right fun _ => ?_
    cases hb : b.adressen with
    | ok addrs =>
      simp only [hpStreetMatch, hb, hpAddrLoop_iff]
      constructor
      · rintro ⟨a, ha, h⟩; exact ⟨addrs, rfl, a, ha, h⟩
      · rintro ⟨addrs', haddrs, a, ha, h⟩
        cases haddrs
        exact ⟨a, ha, h⟩
    | error e =>
      simp only [hpStreetMatch, hb]
      constructor
      · intro h; exact absurd h (by simp)
      · rintro ⟨addrs', haddrs, -⟩
        cases haddrs

/-! ## Helper lemmas: folded max/min over the known values -/

lemma foldl_max_mem (x : ℚ) (xs : List ℚ) : xs.foldl max x ∈ x :: xs := by
  induction xs generalizing x with
  | nil => simp
  | cons y ys ih =>
    have h := ih (max x y)
    simp only [List.foldl_cons]
    rcases List.mem_cons.mp h with h1 | h1
    · rw [h1]
      rcases max_choice x y with h2 | h2 <;> rw [h2] <;> simp
    · simp [List.mem_cons, h1]

lemma le_foldl_max (x : ℚ) (xs : List ℚ) : ∀ q ∈ x :: xs, q ≤ xs.foldl max x := by
  induction xs generalizing x with
  | nil => intro q hq; simp at hq; simp [hq]
  | cons y ys ih =>
    intro q hq
    rcases List.mem_cons.mp hq with h1 | h1
    · subst h1
      calc q ≤ max q y := le_max_left _ _
        _ ≤ ys.foldl max (max q y) := ih (max q y) _ (List.mem_cons_self _ _)
    · rcases List.mem_cons.mp h1 with h2 | h2
      · subst h2
        calc q ≤ max x q := le_max_right _ _
          _ ≤ ys.foldl max (max x q) := ih (max x q) _ (List.mem_cons_self _ _)
      · exact ih (max x y) q (List.mem_cons_of_mem _ h2)

lemma foldl_min_mem (x : ℚ) (xs : List ℚ) : xs.foldl min x ∈ x :: xs := by
  induction xs generalizing x with
  | nil => simp
  | cons y ys ih =>
    have h := ih (min x y)
    simp only [List.foldl_cons]
    rcases List.mem_cons.mp h with h1 | h1
    · rw [h1]
      rcases min_choice x y with h2 | h2 <;> rw [h2] <;> simp
    · simp [List.mem_cons, h1]

lemma foldl_min_le (x : ℚ) (xs : List ℚ) : ∀ q ∈ x :: xs, xs.foldl min x ≤ q := by
  induction xs generalizing x with
  | nil => intro q hq; simp at hq; simp [hq]
  | cons y ys ih =>
    intro q hq
    rcases List.mem_cons.mp hq with h1 | h1
    · subst h1
      calc ys.foldl min (min q y) ≤ min q y := ih (min q y) _ (List.mem_cons_self _ _)
        _ ≤ q := min_le_left _ _
    · rcases List.mem_cons.mp h1 with h2 | h2
      · subst h2
        calc ys.foldl min (min x q) ≤ min x q := ih (min x q) _ (List.mem_cons_self _ _)
          _ ≤ q := min_le_right _ _
      · exact ih (min x y) q (List.mem_cons_of_mem _ h2)

lemma mergeMetrics_getElem (metrics : List (String × PowerMetric)) :
    ∀ (bs : List HpBuilding) (idx i : ℕ) (b : HpBuilding), bs[i]? = some b →
      (mergeMetrics metrics idx bs)[i]? =
        some (match List.lookup (buildingKey (idx + i) b) metrics with
              | some m => ⟨some m.max_loading, some m.min_voltage⟩
              | none => ⟨none, none⟩) := by
  intro bs
  induction bs with
  | nil => intro idx i b hb; simp at hb
  | cons hd tl ih =>
    intro idx i b hb
    cases i with
    | zero =>
      simp only [List.getElem?_cons_zero, Option.some_inj] at hb
      subst hb
      simp [mergeMetrics]
    | succ j =>
      simp only [List.getElem?_cons_succ] at hb
      have := ih (idx + 1) j b hb
      simpa [mergeMetrics, Nat.add_assoc, Nat.add_comm 1 j] using this

/-! ## Claim C1 -/

/-- C1 (counterexample): with an empty external metrics mapping, the
merged row of the single building is `(NaN, NaN)` — an unknown marker, as
the claim's first half says — but every summary statistic over the
all-unknown columns is the numeric default (`0.0` for max transformer
loading and the average distances, `1.0` for min voltage in per-unit),
not an "unknown" marker, contradicting the claim's second half. -/
theorem c1_counterexample :
    mergeMetrics [] 0 [⟨.ok [⟨some "A"⟩], some "B1", none, none, none, none⟩]
      = [⟨none, none⟩] ∧
    (hpStatsOf [⟨none, none⟩]
      [⟨.ok [⟨some "A"⟩], some "B1", none, none, none, none⟩]).MaxTrafoLoading = 0 ∧
    (hpStatsOf [⟨none, none⟩]
      [⟨.ok [⟨some "A"⟩], some "B1", none, none, none, none⟩]).MinVoltagePU = 1 ∧
    (hpStatsOf [⟨none, none⟩]
      [⟨.ok [⟨some "A"⟩], some "B1", none, none, none, none⟩]).AvgDistLine = 0 ∧
    (hpStatsOf [⟨none, none⟩]
      [⟨.ok [⟨some "A"⟩], some "B1", none, none, none, none⟩]).AvgDistTransformer = 0 := by
  refine ⟨rfl, rfl, rfl, rfl, rfl⟩

/-- C1 (amended): a building whose key has no entry in the metrics mapping
gets `NaN` (`none`) in both merged numeric fields — an unknown marker, not
zero; the summary statistics skip unknown values (max/min are attained
among the known values and bound them; the mean is the mean of the known
values), but when **all** values of a column are unknown they fall back to
the numeric defaults `0.0` (max loading, averages) and `1.0` (min
voltage), not to an "unknown" marker. -/
theorem c1_unknown_metrics_handling :
    (∀ (metrics : List (String × PowerMetric)) (bs : List HpBuilding) (i : ℕ)
        (b : HpBuilding), bs[i]? = some b →
      List.lookup (buildingKey i b) metrics = none →
      (mergeMetrics metrics 0 bs)[i]? = some ⟨none, none⟩) ∧
    (∀ col : List (Option ℚ), knownVals col = [] →
      statMax col 0 = 0 ∧ statMin col 1 = 1 ∧ statMean col 0 = 0) ∧
    (∀ (col : List (Option ℚ)) (fb : ℚ), knownVals col ≠ [] →
      statMax col fb ∈ knownVals col ∧ (∀ q ∈ knownVals col, q ≤ statMax col fb) ∧
      statMin col fb ∈ knownVals col ∧ (∀ q ∈ knownVals col, statMin col fb ≤ q) ∧
      statMean col fb = (knownVals col).sum / ((knownVals col).length : ℚ)) := by
  refine ⟨?_, ?_, ?_⟩
  · intro metrics bs i b hb hlook
    have := mergeMetrics_getElem metrics bs 0 i b hb
    rw [Nat.zero_add] at this
    rw [this, hlook]
  · intro col h
    refine ⟨?_, ?_, ?_⟩ <;> simp [statMax, statMin, statMean, h]
  · intro col fb h
    obtain ⟨x, xs, hx⟩ := List.exists_cons_of_ne_nil h
    refine ⟨?_, ?_, ?_, ?_, ?_⟩
    · unfold statMax; rw [hx]; exact foldl_max_mem x xs
    · intro q hq; unfold statMax; rw [hx]; rw [hx] at hq; exact le_foldl_max x xs q hq
    · unfold statMin; rw [hx]; exact foldl_min_mem x xs
    · intro q hq; unfold statMin; rw [hx]; rw [hx] at hq; exact foldl_min_le x xs q hq
    · unfold statMean; rw [hx]

/-- C1 (witness): at a concrete column with one known and one unknown
value, and a concrete one-building merge with an empty mapping, the
amended statements hold with their hypotheses discharged. -/
theorem c1_unknown_metrics_handling_witness :
    (mergeMetrics [] 0 [⟨.ok [⟨some "A"⟩], some "B1", none, none, none, none⟩])[0]?
      = some ⟨none, none⟩ ∧
    statMax [none, none] 0 = 0 ∧
    statMax [some 5, none] 0 ∈ knownVals [some 5, none] := by
  refine ⟨c1_unknown_metrics_handling.1 [] _ 0 _ rfl rfl,
    (c1_unknown_metrics_handling.2.1 [none, none] rfl).1,
    (c1_unknown_metrics_handling.2.2 [some 5, none] 0 (by decide)).1⟩

/-! ## Results Lister: `list_available_results` -/

/-- The category markers assigned by `list_available_results`, named as
the spec's fixed mapping names them (`web` is the 🌐 marker for `.html`,
`table` 📊 for `.csv`, `data` 📄 for `.json`, `image` 🖼️ for
`.png`/`.jpg`, `geometry` 🗺️ for `.geojson`, `file` 📁 otherwise). -/
inductive FileCategory where
  | web | table | data | image | geometry | file
deriving Repr, DecidableEq

/-- The `endswith` chain of `list_available_results` (lines 1171-1182),
in source order. -/
def categorizeFile (fname : String) : FileCategory :=
  if pyEnds fname ".html" then .web
  else if pyEnds fname ".csv" then .table
  else if pyEnds fname ".json" then .data
  else if pyEnds fname ".png" || pyEnds fname ".jpg" then .image
  else if pyEnds fname ".geojson" then .geometry
  else .file

lemma listStarts_get {p l : List Char} (h : listStarts p l = true) :
    ∀ i, i < p.length → l[i]? = p[i]? := by
  induction p generalizing l with
  | nil => intro i hi; simp at hi
  | cons x ps ih =>
    cases l with
    | nil => simp [listStarts] at h
    | cons c cs =>
      simp only [listStarts, Bool.and_eq_true, beq_iff_eq] at h
      intro i hi
      cases i with
      | zero => simp [h.1]
      | succ j => simpa using ih h.2 j (by simpa using hi)

/-- If `name` ends with `s1`, and `s1` and `s2` disagree (as suffixes) at
back-offset `i`, then `name` cannot also end with `s2`. -/
lemma pyEnds_excl {name s1 s2 : String} (i : ℕ)
    (h1 : pyEnds name s1 = true)
    (hlt1 : i < s1.data.reverse.length) (hlt2 : i < s2.data.reverse.length)
    (hne : s1.data.reverse[i]? ≠ s2.data.reverse[i]?) :
    pyEnds name s2 = false := by
  cases hc : pyEnds name s2 with
  | false => rfl
  | true =>
    exfalso
    have g1 := listStarts_get (p := s1.data.reverse) (l := name.data.reverse) h1 i hlt1
    have g2 := listStarts_get (p := s2.data.reverse) (l := name.data.reverse) hc i hlt2
    exact hne (g1.symm.trans g2)

/-! ## Claim C6 -/

/-- C6: the results lister's category is derived purely from the file
name's extension through the fixed mapping html→web, csv→table,
json→data, png/jpg→image, geojson→geometry, anything else→file; in
particular a name ending in `.geojson` never takes the earlier `.json`
branch (the characters five from the end differ), so it is always
categorized as `geometry`. -/
theorem c6_extension_category (fname : String) :
    (pyEnds fname ".html" = true → categorizeFile fname = .web) ∧
    (pyEnds fname ".csv" = true → categorizeFile fname = .table) ∧
    (pyEnds fname ".json" = true → categorizeFile fname = .data) ∧
    (pyEnds fname ".png" = true ∨ pyEnds fname ".jpg" = true →
      categorizeFile fname = .image) ∧
    (pyEnds fname ".geojson" = true → categorizeFile fname = .geometry) ∧
    (pyEnds fname ".html" = false → pyEnds fname ".csv" = false →
      pyEnds fname ".json" = false → pyEnds fname ".png" = false →
      pyEnds fname ".jpg" = false → pyEnds fname ".geojson" = false →
      categorizeFile fname = .file) := by
  refine ⟨?_, ?_, ?_, ?_, ?_, ?_⟩
  · intro h; simp [categorizeFile, h]
  · intro h
    have e1 : pyEnds fname ".html" = false :=
      pyEnds_excl 0 h (by decide) (by decide) (by decide)
    simp [categorizeFile, h, e1]
  · intro h
    have e1 : pyEnds fname ".html" = false :=
      pyEnds_excl 0 h (by decide) (by decide) (by decide)
    have e2 : pyEnds fname ".csv" = false :=
      pyEnds_excl 0 h (by decide) (by decide) (by decide)
    simp [categorizeFile, h, e1, e2]
  · rintro (h | h)
    · have e1 : pyEnds fname ".html" = false :=
        pyEnds_excl 0 h (by decide) (by decide) (by decide)
      have e2 : pyEnds fname ".csv" = false :=
        pyEnds_excl 0 h (by decide) (by decide) (by decide)
      have e3 : pyEnds fname ".json" = false :=
        pyEnds_excl 0 h (by decide) (by decide) (by decide)
      simp [categorizeFile, h, e1, e2, e3]
    · have e1 : pyEnds fname ".html" = false :=
        pyEnds_excl 0 h (by decide) (by decide) (by decide)
      have e2 : pyEnds fname ".csv" = false :=
        pyEnds_excl 0 h (by decide) (by decide) (by decide)
      have e3 : pyEnds fname ".json" = false :=
        pyEnds_excl 0 h (by decide) (by decide) (by decide)
      simp [categorizeFile, h, e1, e2, e3]
  · intro h
    have e1 : pyEnds fname ".html" = false :=
      pyEnds_excl 0 h (by decide) (by decide) (by decide)
    have e2 : pyEnds fname ".csv" = false :=
      pyEnds_excl 0 h (by decide) (by decide) (by decide)
    have e3 : pyEnds fname ".json" = false :=
      pyEnds_excl 4 h (by decide) (by decide) (by decide)
    have e4 : pyEnds fname ".png" = false :=
      pyEnds_excl 0 h (by decide) (by decide) (by decide)
    have e5 : pyEnds fname ".jpg" = false :=
      pyEnds_excl 0 h (by decide) (by decide) (by decide)
    simp [categorizeFile, h, e1, e2, e3, e4, e5]
  · intro h1 h2 h3 h4 h5 h6
    simp [categorizeFile, h1, h2, h3, h4, h5, h6]

/-- C6 (witness): concrete file names of each kind, categorized by
applying the theorem with its hypotheses discharged. -/
theorem c6_extension_category_witness :
    categorizeFile "results_test/dh_analysis/buildings_X.geojson" = .geometry ∧
    categorizeFile "hp_feasibility_dashboard.html" = .web ∧
    categorizeFile "stats.json" = .data ∧
    categorizeFile "notes.txt" = .file :=
  ⟨(c6_extension_category "results_test/dh_analysis/buildings_X.geojson").2.2.2.2.1
      (by decide),
    (c6_extension_category "hp_feasibility_dashboard.html").1 (by decide),
    (c6_extension_category "stats.json").2.2.1 (by decide),
    (c6_extension_category "notes.txt").2.2.2.2.2 (by decide) (by decide) (by decide)
      (by decide) (by decide) (by decide)⟩

/-! ## Report Renderer: the dashboard and summary templates

The five f-string templates of the source, transcribed byte for byte
(braces and apostrophes written as `\x7b`, `\x7d`, `\x27` escapes).  The
`datetime.now().strftime(...)` placeholder is the `dateStr` argument;
every other placeholder is a pure function of the remaining arguments. -/

/-- The `network_stats` dict as read from
`dual_network_stats_dh_analysis_<street>.json`; each field is the value
`network_stats.get(key, default)` looks up (`none` when the key is
absent, so the template's per-key default applies). -/
structure DhNetworkStats where
  total_supply_length_km : Option ℚ
  total_return_length_km : Option ℚ
  total_main_length_km : Option ℚ
  total_service_length_m : Option ℚ
  num_buildings : Option ℕ
  service_connections : Option ℕ
  total_heat_demand_mwh : Option ℚ
  network_density_km_per_building : Option ℚ
deriving Repr, DecidableEq

/-- The `simulation_results` dict as read from
`pandapipes_simulation_results_dh_analysis_<street>.json`. -/
structure DhSimResults where
  pressure_drop_bar : Option ℚ
  total_flow_kg_per_s : Option ℚ
  temperature_drop_c : Option ℚ
  hydraulic_success : Option Bool
deriving Repr, DecidableEq
def hpDashboardHtml (street_name scenario : String) (stats : HpStats) (dateStr mapBase : String) : String :=
  "<!DOCTYPE html>\n<html lang=\"en\">\n<head>\n    <meta charset=\"UTF-8\">\n    <meta name=\"viewport\" content=\"width=device-width, initial-scale=1.0\">\n    <title>Heat Pump Feasibility Analysis Dashboard - " ++
  street_name ++
  "</title>\n    <style>\n        body \x7b\n            font-family: \x27Segoe UI\x27, Tahoma, Geneva, Verdana, sans-serif;\n            margin: 0;\n            padding: 0;\n            background: linear-gradient(135deg, #667eea 0%, #764ba2 100%);\n            min-height: 100vh;\n        \x7d\n        .container \x7b\n            max-width: 1400px;\n            margin: 0 auto;\n            padding: 20px;\n        \x7d\n        .header \x7b\n            background: rgba(255, 255, 255, 0.95);\n            padding: 30px;\n            border-radius: 15px;\n            box-shadow: 0 8px 32px rgba(0, 0, 0, 0.1);\n            margin-bottom: 30px;\n            text-align: center;\n        \x7d\n        .header h1 \x7b\n            color: #2c3e50;\n            margin: 0;\n            font-size: 2.5em;\n            font-weight: 300;\n        \x7d\n        .header p \x7b\n            color: #7f8c8d;\n            margin: 10px 0 0 0;\n            font-size: 1.2em;\n        \x7d\n        .dashboard-grid \x7b\n            display: grid;\n            grid-template-columns: 1fr 1fr;\n            gap: 30px;\n            margin-bottom: 30px;\n        \x7d\n        .panel \x7b\n            background: rgba(255, 255, 255, 0.95);\n            padding: 25px;\n            border-radius: 15px;\n            box-shadow: 0 8px 32px rgba(0, 0, 0, 0.1);\n        \x7d\n        .panel h2 \x7b\n            color: #2c3e50;\n            margin: 0 0 20px 0;\n            font-size: 1.5em;\n            border-bottom: 3px solid #667eea;\n            padding-bottom: 10px;\n        \x7d\n        .metric-grid \x7b\n            display: grid;\n            grid-template-columns: repeat(auto-fit, minmax(200px, 1fr));\n            gap: 20px;\n        \x7d\n        .metric-card \x7b\n            background: linear-gradient(135deg, #667eea 0%, #764ba2 100%);\n            color: white;\n            padding: 20px;\n            border-radius: 10px;\n            text-align: center;\n            box-shadow: 0 4px 15px rgba(0, 0, 0, 0.1);\n        \x7d\n        .metric-value \x7b\n            font-size: 2em;\n            font-weight: bold;\n            margin-bottom: 5px;\n        \x7d\n        .metric-label \x7b\n            font-size: 0.9em;\n            opacity: 0.9;\n        \x7d\n        .status-success \x7b\n            background: linear-gradient(135deg, #00b894 0%, #00a085 100%);\n        \x7d\n        .map-container \x7b\n            background: rgba(255, 255, 255, 0.95);\n            padding: 25px;\n            border-radius: 15px;\n            box-shadow: 0 8px 32px rgba(0, 0, 0, 0.1);\n            margin-bottom: 30px;\n        \x7d\n        .map-container h2 \x7b\n            color: #2c3e50;\n            margin: 0 0 20px 0;\n            font-size: 1.5em;\n            border-bottom: 3px solid #667eea;\n            padding-bottom: 10px;\n        \x7d\n        .map-container iframe \x7b\n            width: 100%;\n            height: 600px;\n            border: none;\n            border-radius: 10px;\n        \x7d\n        @media (max-width: 768px) \x7b\n            .dashboard-grid \x7b\n                grid-template-columns: 1fr;\n            \x7d\n            .metric-grid \x7b\n                grid-template-columns: 1fr;\n            \x7d\n        \x7d\n    </style>\n</head>\n<body>\n    <div class=\"container\">\n        <div class=\"header\">\n            <h1>🔌 Heat Pump Feasibility Analysis Dashboard</h1>\n            <p>Comprehensive electrical infrastructure assessment for " ++
  street_name ++
  "</p>\n            <p><strong>Analysis Date:</strong> " ++
  dateStr ++
  " | <strong>Scenario:</strong> " ++
  scenario ++
  "</p>\n        </div>\n\n        <div class=\"dashboard-grid\">\n            <div class=\"panel\">\n                <h2>📊 Electrical Network Metrics</h2>\n                <div class=\"metric-grid\">\n                    <div class=\"metric-card\">\n                        <div class=\"metric-value\">" ++
  fmtFixed 2 stats.MaxTrafoLoading ++
  "%</div>\n                        <div class=\"metric-label\">Max Transformer Loading</div>\n                    </div>\n                    <div class=\"metric-card\">\n                        <div class=\"metric-value\">" ++
  fmtFixed 3 stats.MinVoltagePU ++
  "</div>\n                        <div class=\"metric-label\">Min Voltage (pu)</div>\n                    </div>\n                    <div class=\"metric-card\">\n                        <div class=\"metric-value\">" ++
  fmtFixed 0 stats.AvgDistLine ++
  " m</div>\n                        <div class=\"metric-label\">Avg Distance to Line</div>\n                    </div>\n                    <div class=\"metric-card\">\n                        <div class=\"metric-value\">" ++
  fmtFixed 0 stats.AvgDistTransformer ++
  " m</div>\n                        <div class=\"metric-label\">Avg Distance to Transformer</div>\n                    </div>\n                </div>\n            </div>\n\n            <div class=\"panel\">\n                <h2>🏢 Building Analysis</h2>\n                <div class=\"metric-grid\">\n                    <div class=\"metric-card status-success\">\n                        <div class=\"metric-value\">" ++
  toString stats.BuildingsCount ++
  "</div>\n                        <div class=\"metric-label\">Total Buildings</div>\n                    </div>\n                    <div class=\"metric-card status-success\">\n                        <div class=\"metric-value\">" ++
  toString stats.BuildingsCount ++
  "</div>\n                        <div class=\"metric-label\">Close to Transformer</div>\n                    </div>\n                    <div class=\"metric-card\">\n                        <div class=\"metric-value\">100.0%</div>\n                        <div class=\"metric-label\">Network Coverage</div>\n                    </div>\n                    <div class=\"metric-card\">\n                        <div class=\"metric-value\">✅ Ready</div>\n                        <div class=\"metric-label\">Implementation Status</div>\n                    </div>\n                </div>\n            </div>\n        </div>\n\n        <div class=\"map-container\">\n            <h2>🗺️ Interactive Network Map</h2>\n            <iframe src=\"" ++
  mapBase ++
  "\"></iframe>\n        </div>\n\n        <div class=\"panel\">\n            <h2>✅ Implementation Recommendations</h2>\n            <div style=\"background: #f8f9fa; padding: 20px; border-radius: 10px; border-left: 5px solid #00b894;\">\n                <h4 style=\"margin: 0 0 10px 0; color: #2c3e50;\">🔌 Electrical Capacity</h4>\n                <p style=\"margin: 0; color: #7f8c8d;\">✅ Network can support heat pump loads - Max transformer loading: " ++
  fmtFixed 2 stats.MaxTrafoLoading ++
  "%</p>\n            </div>\n            <div style=\"background: #f8f9fa; padding: 20px; border-radius: 10px; border-left: 5px solid #00b894; margin-top: 15px;\">\n                <h4 style=\"margin: 0 0 10px 0; color: #2c3e50;\">🏗️ Infrastructure Proximity</h4>\n                <p style=\"margin: 0; color: #7f8c8d;\">✅ Buildings within connection range - Avg distance to transformer: " ++
  fmtFixed 0 stats.AvgDistTransformer ++
  "m</p>\n            </div>\n            <div style=\"background: #f8f9fa; padding: 20px; border-radius: 10px; border-left: 5px solid #00b894; margin-top: 15px;\">\n                <h4 style=\"margin: 0 0 10px 0; color: #2c3e50;\">🛣️ Street-Based Routing</h4>\n                <p style=\"margin: 0; color: #7f8c8d;\">✅ Construction-ready service connections following existing street network</p>\n            </div>\n            <div style=\"background: #f8f9fa; padding: 20px; border-radius: 10px; border-left: 5px solid #00b894; margin-top: 15px;\">\n                <h4 style=\"margin: 0 0 10px 0; color: #2c3e50;\">⚡ Power Quality</h4>\n                <p style=\"margin: 0; color: #7f8c8d;\">✅ Voltage levels within acceptable range - Min voltage: " ++
  fmtFixed 3 stats.MinVoltagePU ++
  " pu</p>\n            </div>\n        </div>\n    </div>\n</body>\n</html>"

def hpDashboardPre (street_name scenario : String) (stats : HpStats) (mapBase : String) : String :=
  "<!DOCTYPE html>\n<html lang=\"en\">\n<head>\n    <meta charset=\"UTF-8\">\n    <meta name=\"viewport\" content=\"width=device-width, initial-scale=1.0\">\n    <title>Heat Pump Feasibility Analysis Dashboard - " ++
  street_name ++
  "</title>\n    <style>\n        body \x7b\n            font-family: \x27Segoe UI\x27, Tahoma, Geneva, Verdana, sans-serif;\n            margin: 0;\n            padding: 0;\n            background: linear-gradient(135deg, #667eea 0%, #764ba2 100%);\n            min-height: 100vh;\n        \x7d\n        .container \x7b\n            max-width: 1400px;\n            margin: 0 auto;\n            padding: 20px;\n        \x7d\n        .header \x7b\n            background: rgba(255, 255, 255, 0.95);\n            padding: 30px;\n            border-radius: 15px;\n            box-shadow: 0 8px 32px rgba(0, 0, 0, 0.1);\n            margin-bottom: 30px;\n            text-align: center;\n        \x7d\n        .header h1 \x7b\n            color: #2c3e50;\n            margin: 0;\n            font-size: 2.5em;\n            font-weight: 300;\n        \x7d\n        .header p \x7b\n            color: #7f8c8d;\n            margin: 10px 0 0 0;\n            font-size: 1.2em;\n        \x7d\n        .dashboard-grid \x7b\n            display: grid;\n            grid-template-columns: 1fr 1fr;\n            gap: 30px;\n            margin-bottom: 30px;\n        \x7d\n        .panel \x7b\n            background: rgba(255, 255, 255, 0.95);\n            padding: 25px;\n            border-radius: 15px;\n            box-shadow: 0 8px 32px rgba(0, 0, 0, 0.1);\n        \x7d\n        .panel h2 \x7b\n            color: #2c3e50;\n            margin: 0 0 20px 0;\n            font-size: 1.5em;\n            border-bottom: 3px solid #667eea;\n            padding-bottom: 10px;\n        \x7d\n        .metric-grid \x7b\n            display: grid;\n            grid-template-columns: repeat(auto-fit, minmax(200px, 1fr));\n            gap: 20px;\n        \x7d\n        .metric-card \x7b\n            background: linear-gradient(135deg, #667eea 0%, #764ba2 100%);\n            color: white;\n            padding: 20px;\n            border-radius: 10px;\n            text-align: center;\n            box-shadow: 0 4px 15px rgba(0, 0, 0, 0.1);\n        \x7d\n        .metric-value \x7b\n            font-size: 2em;\n            font-weight: bold;\n            margin-bottom: 5px;\n        \x7d\n        .metric-label \x7b\n            font-size: 0.9em;\n            opacity: 0.9;\n        \x7d\n        .status-success \x7b\n            background: linear-gradient(135deg, #00b894 0%, #00a085 100%);\n        \x7d\n        .map-container \x7b\n            background: rgba(255, 255, 255, 0.95);\n            padding: 25px;\n            border-radius: 15px;\n            box-shadow: 0 8px 32px rgba(0, 0, 0, 0.1);\n            margin-bottom: 30px;\n        \x7d\n        .map-container h2 \x7b\n            color: #2c3e50;\n            margin: 0 0 20px 0;\n            font-size: 1.5em;\n            border-bottom: 3px solid #667eea;\n            padding-bottom: 10px;\n        \x7d\n        .map-container iframe \x7b\n            width: 100%;\n            height: 600px;\n            border: none;\n            border-radius: 10px;\n        \x7d\n        @media (max-width: 768px) \x7b\n            .dashboard-grid \x7b\n                grid-template-columns: 1fr;\n            \x7d\n            .metric-grid \x7b\n                grid-template-columns: 1fr;\n            \x7d\n        \x7d\n    </style>\n</head>\n<body>\n    <div class=\"container\">\n        <div class=\"header\">\n            <h1>🔌 Heat Pump Feasibility Analysis Dashboard</h1>\n            <p>Comprehensive electrical infrastructure assessment for " ++
  street_name ++
  "</p>\n            <p><strong>Analysis Date:</strong> "

def hpDashboardSuf (street_name scenario : String) (stats : HpStats) (mapBase : String) : String :=
  " | <strong>Scenario:</strong> " ++
  scenario ++
  "</p>\n        </div>\n\n        <div class=\"dashboard-grid\">\n            <div class=\"panel\">\n                <h2>📊 Electrical Network Metrics</h2>\n                <div class=\"metric-grid\">\n                    <div class=\"metric-card\">\n                        <div class=\"metric-value\">" ++
  fmtFixed 2 stats.MaxTrafoLoading ++
  "%</div>\n                        <div class=\"metric-label\">Max Transformer Loading</div>\n                    </div>\n                    <div class=\"metric-card\">\n                        <div class=\"metric-value\">" ++
  fmtFixed 3 stats.MinVoltagePU ++
  "</div>\n                        <div class=\"metric-label\">Min Voltage (pu)</div>\n                    </div>\n                    <div class=\"metric-card\">\n                        <div class=\"metric-value\">" ++
  fmtFixed 0 stats.AvgDistLine ++
  " m</div>\n                        <div class=\"metric-label\">Avg Distance to Line</div>\n                    </div>\n                    <div class=\"metric-card\">\n                        <div class=\"metric-value\">" ++
  fmtFixed 0 stats.AvgDistTransformer ++
  " m</div>\n                        <div class=\"metric-label\">Avg Distance to Transformer</div>\n                    </div>\n                </div>\n            </div>\n\n            <div class=\"panel\">\n                <h2>🏢 Building Analysis</h2>\n                <div class=\"metric-grid\">\n                    <div class=\"metric-card status-success\">\n                        <div class=\"metric-value\">" ++
  toString stats.BuildingsCount ++
  "</div>\n                        <div class=\"metric-label\">Total Buildings</div>\n                    </div>\n                    <div class=\"metric-card status-success\">\n                        <div class=\"metric-value\">" ++
  toString stats.BuildingsCount ++
  "</div>\n                        <div class=\"metric-label\">Close to Transformer</div>\n                    </div>\n                    <div class=\"metric-card\">\n                        <div class=\"metric-value\">100.0%</div>\n                        <div class=\"metric-label\">Network Coverage</div>\n                    </div>\n                    <div class=\"metric-card\">\n                        <div class=\"metric-value\">✅ Ready</div>\n                        <div class=\"metric-label\">Implementation Status</div>\n                    </div>\n                </div>\n            </div>\n        </div>\n\n        <div class=\"map-container\">\n            <h2>🗺️ Interactive Network Map</h2>\n            <iframe src=\"" ++
  mapBase ++
  "\"></iframe>\n        </div>\n\n        <div class=\"panel\">\n            <h2>✅ Implementation Recommendations</h2>\n            <div style=\"background: #f8f9fa; padding: 20px; border-radius: 10px; border-left: 5px solid #00b894;\">\n                <h4 style=\"margin: 0 0 10px 0; color: #2c3e50;\">🔌 Electrical Capacity</h4>\n                <p style=\"margin: 0; color: #7f8c8d;\">✅ Network can support heat pump loads - Max transformer loading: " ++
  fmtFixed 2 stats.MaxTrafoLoading ++
  "%</p>\n            </div>\n            <div style=\"background: #f8f9fa; padding: 20px; border-radius: 10px; border-left: 5px solid #00b894; margin-top: 15px;\">\n                <h4 style=\"margin: 0 0 10px 0; color: #2c3e50;\">🏗️ Infrastructure Proximity</h4>\n                <p style=\"margin: 0; color: #7f8c8d;\">✅ Buildings within connection range - Avg distance to transformer: " ++
  fmtFixed 0 stats.AvgDistTransformer ++
  "m</p>\n            </div>\n            <div style=\"background: #f8f9fa; padding: 20px; border-radius: 10px; border-left: 5px solid #00b894; margin-top: 15px;\">\n                <h4 style=\"margin: 0 0 10px 0; color: #2c3e50;\">🛣️ Street-Based Routing</h4>\n                <p style=\"margin: 0; color: #7f8c8d;\">✅ Construction-ready service connections following existing street network</p>\n            </div>\n            <div style=\"background: #f8f9fa; padding: 20px; border-radius: 10px; border-left: 5px solid #00b894; margin-top: 15px;\">\n                <h4 style=\"margin: 0 0 10px 0; color: #2c3e50;\">⚡ Power Quality</h4>\n                <p style=\"margin: 0; color: #7f8c8d;\">✅ Voltage levels within acceptable range - Min voltage: " ++
  fmtFixed 3 stats.MinVoltagePU ++
  " pu</p>\n            </div>\n        </div>\n    </div>\n</body>\n</html>"

def hpSummaryText (street_name scenario : String) (stats : HpStats) (avg_dist_to_substation : ℚ) (n chartCount : ℕ) (map_path dashboard_path output_dir dashboardAbs : String) : String :=
  "\n=== COMPREHENSIVE HEAT PUMP FEASIBILITY ANALYSIS ===\nStreet: " ++
  street_name ++
  "\nScenario: " ++
  scenario ++
  "\nBuildings Analyzed: " ++
  toString n ++
  "\n\n📊 ELECTRICAL INFRASTRUCTURE METRICS:\n• Max Transformer Loading: " ++
  fmtFixed 2 stats.MaxTrafoLoading ++
  "%\n• Min Voltage: " ++
  fmtFixed 3 stats.MinVoltagePU ++
  " pu\n• Network Coverage: 100.0% of buildings close to transformers\n\n🏢 PROXIMITY ANALYSIS:\n• Avg Distance to Power Line: " ++
  fmtFixed 1 stats.AvgDistLine ++
  " m\n• Avg Distance to Substation: " ++
  fmtFixed 1 avg_dist_to_substation ++
  " m\n• Avg Distance to Transformer: " ++
  fmtFixed 1 stats.AvgDistTransformer ++
  " m\n• Buildings Close to Transformer: " ++
  toString n ++
  "/" ++
  toString n ++
  "\n\n✅ IMPLEMENTATION READINESS:\n• Electrical Capacity: ✅ Network can support heat pump loads\n• Infrastructure Proximity: ✅ Buildings within connection range\n• Street-Based Routing: ✅ Construction-ready service connections\n• Power Quality: ✅ Voltage levels within acceptable range\n\n📁 GENERATED FILES:\n• Interactive Map: " ++
  map_path ++
  "\n• Dashboard: " ++
  dashboard_path ++
  "\n• Proximity Table: " ++
  output_dir ++
  "/building_proximity_table.csv\n• Charts: " ++
  toString chartCount ++
  " visualization charts\n\n🔗 DASHBOARD LINK: file://" ++
  dashboardAbs ++
  "\n\n✅ REAL ANALYSIS COMPLETED: This analysis used actual power flow simulation,\n   proximity analysis, and interactive map generation from street_final_copy_3.\n"

def dhDashboardHtml (street_name : String) (ns : DhNetworkStats) (sim : DhSimResults) (n : ℕ) (dateStr : String) (mapBase : Option String) : String :=
  "<!DOCTYPE html>\n<html lang=\"en\">\n<head>\n    <meta charset=\"UTF-8\">\n    <meta name=\"viewport\" content=\"width=device-width, initial-scale=1.0\">\n    <title>District Heating Network Analysis - " ++
  street_name ++
  "</title>\n    <style>\n        body \x7b\n            font-family: \x27Segoe UI\x27, Tahoma, Geneva, Verdana, sans-serif;\n            margin: 0;\n            padding: 0;\n            background: linear-gradient(135deg, #e17055 0%, #d63031 100%);\n            min-height: 100vh;\n        \x7d\n        .container \x7b\n            max-width: 1400px;\n            margin: 0 auto;\n            padding: 20px;\n        \x7d\n        .header \x7b\n            background: rgba(255, 255, 255, 0.95);\n            padding: 30px;\n            border-radius: 15px;\n            box-shadow: 0 8px 32px rgba(0, 0, 0, 0.1);\n            margin-bottom: 30px;\n            text-align: center;\n        \x7d\n        .header h1 \x7b\n            color: #2c3e50;\n            margin: 0;\n            font-size: 2.5em;\n            font-weight: 300;\n        \x7d\n        .header p \x7b\n            color: #7f8c8d;\n            margin: 10px 0 0 0;\n            font-size: 1.2em;\n        \x7d\n        .dashboard-grid \x7b\n            display: grid;\n            grid-template-columns: 1fr 1fr;\n            gap: 30px;\n            margin-bottom: 30px;\n        \x7d\n        .panel \x7b\n            background: rgba(255, 255, 255, 0.95);\n            padding: 25px;\n            border-radius: 15px;\n            box-shadow: 0 8px 32px rgba(0, 0, 0, 0.1);\n        \x7d\n        .panel h2 \x7b\n            color: #2c3e50;\n            margin: 0 0 20px 0;\n            font-size: 1.5em;\n            border-bottom: 3px solid #e74c3c;\n            padding-bottom: 10px;\n        \x7d\n        .metric-grid \x7b\n            display: grid;\n            grid-template-columns: repeat(auto-fit, minmax(200px, 1fr));\n            gap: 20px;\n        \x7d\n        .metric-card \x7b\n            background: linear-gradient(135deg, #fd79a8 0%, #e84393 100%);\n            color: white;\n            padding: 20px;\n            border-radius: 10px;\n            text-align: center;\n            box-shadow: 0 4px 15px rgba(0, 0, 0, 0.1);\n        \x7d\n        .metric-value \x7b\n            font-size: 2em;\n            font-weight: bold;\n            margin-bottom: 5px;\n        \x7d\n        .metric-label \x7b\n            font-size: 0.9em;\n            opacity: 0.9;\n        \x7d\n        .status-success \x7b\n            background: linear-gradient(135deg, #00b894 0%, #00a085 100%);\n        \x7d\n        .map-container \x7b\n            background: rgba(255, 255, 255, 0.95);\n            padding: 25px;\n            border-radius: 15px;\n            box-shadow: 0 8px 32px rgba(0, 0, 0, 0.1);\n            margin-bottom: 30px;\n        \x7d\n        .map-container h2 \x7b\n            color: #2c3e50;\n            margin: 0 0 20px 0;\n            font-size: 1.5em;\n            border-bottom: 3px solid #e74c3c;\n            padding-bottom: 10px;\n        \x7d\n        .map-container iframe \x7b\n            width: 100%;\n            height: 600px;\n            border: none;\n            border-radius: 10px;\n        \x7d\n        @media (max-width: 768px) \x7b\n            .dashboard-grid \x7b\n                grid-template-columns: 1fr;\n            \x7d\n            .metric-grid \x7b\n                grid-template-columns: 1fr;\n            \x7d\n        \x7d\n    </style>\n</head>\n<body>\n    <div class=\"container\">\n        <div class=\"header\">\n            <h1>🔥 District Heating Network Analysis</h1>\n            <p>Comprehensive dual-pipe network design and hydraulic simulation for " ++
  street_name ++
  "</p>\n            <p><strong>Analysis Date:</strong> " ++
  dateStr ++
  " | <strong>Buildings Analyzed:</strong> " ++
  toString (ns.num_buildings.getD n) ++
  "</p>\n        </div>\n\n        <div class=\"dashboard-grid\">\n            <div class=\"panel\">\n                <h2>📊 Network Infrastructure</h2>\n                <div class=\"metric-grid\">\n                    <div class=\"metric-card\">\n                        <div class=\"metric-value\">" ++
  fmtFixed 2 (ns.total_supply_length_km.getD (92 / 100)) ++
  " km</div>\n                        <div class=\"metric-label\">Supply Pipes</div>\n                    </div>\n                    <div class=\"metric-card\">\n                        <div class=\"metric-value\">" ++
  fmtFixed 2 (ns.total_return_length_km.getD (92 / 100)) ++
  " km</div>\n                        <div class=\"metric-label\">Return Pipes</div>\n                    </div>\n                    <div class=\"metric-card\">\n                        <div class=\"metric-value\">" ++
  fmtFixed 2 (ns.total_main_length_km.getD (184 / 100)) ++
  " km</div>\n                        <div class=\"metric-label\">Total Main Pipes</div>\n                    </div>\n                    <div class=\"metric-card\">\n                        <div class=\"metric-value\">" ++
  fmtFixed 0 (ns.total_service_length_m.getD ((n : ℚ) * 50)) ++
  " m</div>\n                        <div class=\"metric-label\">Service Pipes</div>\n                    </div>\n                </div>\n            </div>\n\n            <div class=\"panel\">\n                <h2>🏢 Building Connections</h2>\n                <div class=\"metric-grid\">\n                    <div class=\"metric-card\">\n                        <div class=\"metric-value\">" ++
  toString (ns.num_buildings.getD n) ++
  "</div>\n                        <div class=\"metric-label\">Total Buildings</div>\n                    </div>\n                    <div class=\"metric-card\">\n                        <div class=\"metric-value\">" ++
  toString (ns.service_connections.getD (n * 2)) ++
  "</div>\n                        <div class=\"metric-label\">Service Connections</div>\n                    </div>\n                    <div class=\"metric-card\">\n                        <div class=\"metric-value\">" ++
  fmtFixed 1 (ns.total_heat_demand_mwh.getD ((n : ℚ) * 10)) ++
  "</div>\n                        <div class=\"metric-label\">Total Heat Demand (MWh/year)</div>\n                    </div>\n                    <div class=\"metric-card\">\n                        <div class=\"metric-value\">" ++
  fmtFixed 3 (ns.network_density_km_per_building.getD (184 / 100 / (n : ℚ))) ++
  "</div>\n                        <div class=\"metric-label\">Network Density (km/building)</div>\n                    </div>\n                </div>\n            </div>\n        </div>\n\n        <div class=\"panel\">\n            <h2>⚡ Hydraulic Simulation Results</h2>\n            <div class=\"metric-grid\">\n                <div class=\"metric-card status-success\">\n                    <div class=\"metric-value\">" ++
  fmtFixed 6 (sim.pressure_drop_bar.getD (25 / 1000000)) ++
  "</div>\n                    <div class=\"metric-label\">Pressure Drop (bar)</div>\n                </div>\n                <div class=\"metric-card\">\n                    <div class=\"metric-value\">" ++
  fmtFixed 1 (sim.total_flow_kg_per_s.getD ((n : ℚ) * (1 / 10))) ++
  "</div>\n                    <div class=\"metric-label\">Total Flow (kg/s)</div>\n                </div>\n                <div class=\"metric-card\">\n                    <div class=\"metric-value\">" ++
  fmtFixed 1 (sim.temperature_drop_c.getD 30) ++
  " °C</div>\n                    <div class=\"metric-label\">Temperature Drop</div>\n                </div>\n                <div class=\"metric-card status-success\">\n                    <div class=\"metric-value\">" ++
  (if sim.hydraulic_success.getD true then "✅ Yes" else "❌ No") ++
  "</div>\n                    <div class=\"metric-label\">Hydraulic Success</div>\n                </div>\n            </div>\n        </div>\n\n        <div class=\"map-container\">\n            <h2>🗺️ Interactive Network Map</h2>\n            <iframe src=\"" ++
  (mapBase.getD "dh_network_map.html") ++
  "\"></iframe>\n        </div>\n\n        <div class=\"panel\">\n            <h2>✅ Implementation Recommendations</h2>\n            <div style=\"background: #f8f9fa; padding: 20px; border-radius: 10px; border-left: 5px solid #00b894;\">\n                <h4 style=\"margin: 0 0 10px 0; color: #2c3e50;\">🔥 Complete Dual-Pipe System</h4>\n                <p style=\"margin: 0; color: #7f8c8d;\">✅ Supply and return networks designed - " ++
  fmtFixed 2 (ns.total_main_length_km.getD (184 / 100)) ++
  " km total main pipes</p>\n            </div>\n            <div style=\"background: #f8f9fa; padding: 20px; border-radius: 10px; border-left: 5px solid #00b894; margin-top: 15px;\">\n                <h4 style=\"margin: 0 0 10px 0; color: #2c3e50;\">⚡ Pandapipes Simulation</h4>\n                <p style=\"margin: 0; color: #7f8c8d;\">✅ Hydraulic analysis completed successfully - Pressure drop within limits</p>\n            </div>\n            <div style=\"background: #f8f9fa; padding: 20px; border-radius: 10px; border-left: 5px solid #00b894; margin-top: 15px;\">\n                <h4 style=\"margin: 0 0 10px 0; color: #2c3e50;\">🏗️ Engineering Compliance</h4>\n                <p style=\"margin: 0; color: #7f8c8d;\">✅ Industry standards met - Temperature drop of " ++
  fmtFixed 1 (sim.temperature_drop_c.getD 30) ++
  "°C achieved</p>\n            </div>\n            <div style=\"background: #f8f9fa; padding: 20px; border-radius: 10px; border-left: 5px solid #00b894; margin-top: 15px;\">\n                <h4 style=\"margin: 0 0 10px 0; color: #2c3e50;\">🛣️ Street-Based Routing</h4>\n                <p style=\"margin: 0; color: #7f8c8d;\">✅ ALL connections follow existing street network for construction feasibility</p>\n            </div>\n        </div>\n    </div>\n</body>\n</html>"

def dhDashboardPre (street_name : String) (ns : DhNetworkStats) (sim : DhSimResults) (n : ℕ) (mapBase : Option String) : String :=
  "<!DOCTYPE html>\n<html lang=\"en\">\n<head>\n    <meta charset=\"UTF-8\">\n    <meta name=\"viewport\" content=\"width=device-width, initial-scale=1.0\">\n    <title>District Heating Network Analysis - " ++
  street_name ++
  "</title>\n    <style>\n        body \x7b\n            font-family: \x27Segoe UI\x27, Tahoma, Geneva, Verdana, sans-serif;\n            margin: 0;\n            padding: 0;\n            background: linear-gradient(135deg, #e17055 0%, #d63031 100%);\n            min-height: 100vh;\n        \x7d\n        .container \x7b\n            max-width: 1400px;\n            margin: 0 auto;\n            padding: 20px;\n        \x7d\n        .header \x7b\n            background: rgba(255, 255, 255, 0.95);\n            padding: 30px;\n            border-radius: 15px;\n            box-shadow: 0 8px 32px rgba(0, 0, 0, 0.1);\n            margin-bottom: 30px;\n            text-align: center;\n        \x7d\n        .header h1 \x7b\n            color: #2c3e50;\n            margin: 0;\n            font-size: 2.5em;\n            font-weight: 300;\n        \x7d\n        .header p \x7b\n            color: #7f8c8d;\n            margin: 10px 0 0 0;\n            font-size: 1.2em;\n        \x7d\n        .dashboard-grid \x7b\n            display: grid;\n            grid-template-columns: 1fr 1fr;\n            gap: 30px;\n            margin-bottom: 30px;\n        \x7d\n        .panel \x7b\n            background: rgba(255, 255, 255, 0.95);\n            padding: 25px;\n            border-radius: 15px;\n            box-shadow: 0 8px 32px rgba(0, 0, 0, 0.1);\n        \x7d\n        .panel h2 \x7b\n            color: #2c3e50;\n            margin: 0 0 20px 0;\n            font-size: 1.5em;\n            border-bottom: 3px solid #e74c3c;\n            padding-bottom: 10px;\n        \x7d\n        .metric-grid \x7b\n            display: grid;\n            grid-template-columns: repeat(auto-fit, minmax(200px, 1fr));\n            gap: 20px;\n        \x7d\n        .metric-card \x7b\n            background: linear-gradient(135deg, #fd79a8 0%, #e84393 100%);\n            color: white;\n            padding: 20px;\n            border-radius: 10px;\n            text-align: center;\n            box-shadow: 0 4px 15px rgba(0, 0, 0, 0.1);\n        \x7d\n        .metric-value \x7b\n            font-size: 2em;\n            font-weight: bold;\n            margin-bottom: 5px;\n        \x7d\n        .metric-label \x7b\n            font-size: 0.9em;\n            opacity: 0.9;\n        \x7d\n        .status-success \x7b\n            background: linear-gradient(135deg, #00b894 0%, #00a085 100%);\n        \x7d\n        .map-container \x7b\n            background: rgba(255, 255, 255, 0.95);\n            padding: 25px;\n            border-radius: 15px;\n            box-shadow: 0 8px 32px rgba(0, 0, 0, 0.1);\n            margin-bottom: 30px;\n        \x7d\n        .map-container h2 \x7b\n            color: #2c3e50;\n            margin: 0 0 20px 0;\n            font-size: 1.5em;\n            border-bottom: 3px solid #e74c3c;\n            padding-bottom: 10px;\n        \x7d\n        .map-container iframe \x7b\n            width: 100%;\n            height: 600px;\n            border: none;\n            border-radius: 10px;\n        \x7d\n        @media (max-width: 768px) \x7b\n            .dashboard-grid \x7b\n                grid-template-columns: 1fr;\n            \x7d\n            .metric-grid \x7b\n                grid-template-columns: 1fr;\n            \x7d\n        \x7d\n    </style>\n</head>\n<body>\n    <div class=\"container\">\n        <div class=\"header\">\n            <h1>🔥 District Heating Network Analysis</h1>\n            <p>Comprehensive dual-pipe network design and hydraulic simulation for " ++
  street_name ++
  "</p>\n            <p><strong>Analysis Date:</strong> "

def dhDashboardSuf (street_name : String) (ns : DhNetworkStats) (sim : DhSimResults) (n : ℕ) (mapBase : Option String) : String :=
  " | <strong>Buildings Analyzed:</strong> " ++
  toString (ns.num_buildings.getD n) ++
  "</p>\n        </div>\n\n        <div class=\"dashboard-grid\">\n            <div class=\"panel\">\n                <h2>📊 Network Infrastructure</h2>\n                <div class=\"metric-grid\">\n                    <div class=\"metric-card\">\n                        <div class=\"metric-value\">" ++
  fmtFixed 2 (ns.total_supply_length_km.getD (92 / 100)) ++
  " km</div>\n                        <div class=\"metric-label\">Supply Pipes</div>\n                    </div>\n                    <div class=\"metric-card\">\n                        <div class=\"metric-value\">" ++
  fmtFixed 2 (ns.total_return_length_km.getD (92 / 100)) ++
  " km</div>\n                        <div class=\"metric-label\">Return Pipes</div>\n                    </div>\n                    <div class=\"metric-card\">\n                        <div class=\"metric-value\">" ++
  fmtFixed 2 (ns.total_main_length_km.getD (184 / 100)) ++
  " km</div>\n                        <div class=\"metric-label\">Total Main Pipes</div>\n                    </div>\n                    <div class=\"metric-card\">\n                        <div class=\"metric-value\">" ++
  fmtFixed 0 (ns.total_service_length_m.getD ((n : ℚ) * 50)) ++
  " m</div>\n                        <div class=\"metric-label\">Service Pipes</div>\n                    </div>\n                </div>\n            </div>\n\n            <div class=\"panel\">\n                <h2>🏢 Building Connections</h2>\n                <div class=\"metric-grid\">\n                    <div class=\"metric-card\">\n                        <div class=\"metric-value\">" ++
  toString (ns.num_buildings.getD n) ++
  "</div>\n                        <div class=\"metric-label\">Total Buildings</div>\n                    </div>\n                    <div class=\"metric-card\">\n                        <div class=\"metric-value\">" ++
  toString (ns.service_connections.getD (n * 2)) ++
  "</div>\n                        <div class=\"metric-label\">Service Connections</div>\n                    </div>\n                    <div class=\"metric-card\">\n                        <div class=\"metric-value\">" ++
  fmtFixed 1 (ns.total_heat_demand_mwh.getD ((n : ℚ) * 10)) ++
  "</div>\n                        <div class=\"metric-label\">Total Heat Demand (MWh/year)</div>\n                    </div>\n                    <div class=\"metric-card\">\n                        <div class=\"metric-value\">" ++
  fmtFixed 3 (ns.network_density_km_per_building.getD (184 / 100 / (n : ℚ))) ++
  "</div>\n                        <div class=\"metric-label\">Network Density (km/building)</div>\n                    </div>\n                </div>\n            </div>\n        </div>\n\n        <div class=\"panel\">\n            <h2>⚡ Hydraulic Simulation Results</h2>\n            <div class=\"metric-grid\">\n                <div class=\"metric-card status-success\">\n                    <div class=\"metric-value\">" ++
  fmtFixed 6 (sim.pressure_drop_bar.getD (25 / 1000000)) ++
  "</div>\n                    <div class=\"metric-label\">Pressure Drop (bar)</div>\n                </div>\n                <div class=\"metric-card\">\n                    <div class=\"metric-value\">" ++
  fmtFixed 1 (sim.total_flow_kg_per_s.getD ((n : ℚ) * (1 / 10))) ++
  "</div>\n                    <div class=\"metric-label\">Total Flow (kg/s)</div>\n                </div>\n                <div class=\"metric-card\">\n                    <div class=\"metric-value\">" ++
  fmtFixed 1 (sim.temperature_drop_c.getD 30) ++
  " °C</div>\n                    <div class=\"metric-label\">Temperature Drop</div>\n                </div>\n                <div class=\"metric-card status-success\">\n                    <div class=\"metric-value\">" ++
  (if sim.hydraulic_success.getD true then "✅ Yes" else "❌ No") ++
  "</div>\n                    <div class=\"metric-label\">Hydraulic Success</div>\n                </div>\n            </div>\n        </div>\n\n        <div class=\"map-container\">\n            <h2>🗺️ Interactive Network Map</h2>\n            <iframe src=\"" ++
  (mapBase.getD "dh_network_map.html") ++
  "\"></iframe>\n        </div>\n\n        <div class=\"panel\">\n            <h2>✅ Implementation Recommendations</h2>\n            <div style=\"background: #f8f9fa; padding: 20px; border-radius: 10px; border-left: 5px solid #00b894;\">\n                <h4 style=\"margin: 0 0 10px 0; color: #2c3e50;\">🔥 Complete Dual-Pipe System</h4>\n                <p style=\"margin: 0; color: #7f8c8d;\">✅ Supply and return networks designed - " ++
  fmtFixed 2 (ns.total_main_length_km.getD (184 / 100)) ++
  " km total main pipes</p>\n            </div>\n            <div style=\"background: #f8f9fa; padding: 20px; border-radius: 10px; border-left: 5px solid #00b894; margin-top: 15px;\">\n                <h4 style=\"margin: 0 0 10px 0; color: #2c3e50;\">⚡ Pandapipes Simulation</h4>\n                <p style=\"margin: 0; color: #7f8c8d;\">✅ Hydraulic analysis completed successfully - Pressure drop within limits</p>\n            </div>\n            <div style=\"background: #f8f9fa; padding: 20px; border-radius: 10px; border-left: 5px solid #00b894; margin-top: 15px;\">\n                <h4 style=\"margin: 0 0 10px 0; color: #2c3e50;\">🏗️ Engineering Compliance</h4>\n                <p style=\"margin: 0; color: #7f8c8d;\">✅ Industry standards met - Temperature drop of " ++
  fmtFixed 1 (sim.temperature_drop_c.getD 30) ++
  "°C achieved</p>\n            </div>\n            <div style=\"background: #f8f9fa; padding: 20px; border-radius: 10px; border-left: 5px solid #00b894; margin-top: 15px;\">\n                <h4 style=\"margin: 0 0 10px 0; color: #2c3e50;\">🛣️ Street-Based Routing</h4>\n                <p style=\"margin: 0; color: #7f8c8d;\">✅ ALL connections follow existing street network for construction feasibility</p>\n            </div>\n        </div>\n    </div>\n</body>\n</html>"

def dhSummaryText (street_name : String) (ns : DhNetworkStats) (sim : DhSimResults) (n : ℕ) (dashboard_path output_dir dashboardAbs : String) : String :=
  "\n=== COMPREHENSIVE DISTRICT HEATING NETWORK ANALYSIS ===\nStreet: " ++
  street_name ++
  "\nBuildings Analyzed: " ++
  toString (ns.num_buildings.getD n) ++
  "\n\n📊 NETWORK INFRASTRUCTURE:\n• Supply Pipes: " ++
  fmtFixed 2 (ns.total_supply_length_km.getD (92 / 100)) ++
  " km\n• Return Pipes: " ++
  fmtFixed 2 (ns.total_return_length_km.getD (92 / 100)) ++
  " km\n• Total Main Pipes: " ++
  fmtFixed 2 (ns.total_main_length_km.getD (184 / 100)) ++
  " km\n• Service Pipes: " ++
  fmtFixed 0 (ns.total_service_length_m.getD ((n : ℚ) * 50)) ++
  " m\n\n🏢 BUILDING CONNECTIONS:\n• Total Buildings: " ++
  toString (ns.num_buildings.getD n) ++
  "\n• Service Connections: " ++
  toString (ns.service_connections.getD (n * 2)) ++
  " (supply + return)\n• Total Heat Demand: " ++
  fmtFixed 1 (ns.total_heat_demand_mwh.getD ((n : ℚ) * 10)) ++
  " MWh/year\n• Network Density: " ++
  fmtFixed 3 (ns.network_density_km_per_building.getD (184 / 100 / (n : ℚ))) ++
  " km per building\n\n⚡ HYDRAULIC SIMULATION:\n• Pressure Drop: " ++
  fmtFixed 6 (sim.pressure_drop_bar.getD (25 / 1000000)) ++
  " bar\n• Total Flow: " ++
  fmtFixed 1 (sim.total_flow_kg_per_s.getD ((n : ℚ) * (1 / 10))) ++
  " kg/s\n• Temperature Drop: " ++
  fmtFixed 1 (sim.temperature_drop_c.getD 30) ++
  " °C\n• Hydraulic Success: " ++
  (if sim.hydraulic_success.getD true then "✅ Yes" else "❌ No") ++
  "\n\n✅ IMPLEMENTATION READINESS:\n• Complete Dual-Pipe System: ✅ Supply and return networks\n• Pandapipes Simulation: ✅ Hydraulic analysis completed\n• Engineering Compliance: ✅ Industry standards met\n• Street-Based Routing: ✅ ALL connections follow streets\n\n📁 GENERATED FILES:\n• Dashboard: " ++
  dashboard_path ++
  "\n• Network Data: " ++
  output_dir ++
  "/dual_supply_pipes_*.csv\n• Service Connections: " ++
  output_dir ++
  "/dual_service_connections_*.csv\n• Simulation Results: " ++
  output_dir ++
  "/pandapipes_simulation_*.json\n\n🔗 DASHBOARD LINK: file://" ++
  dashboardAbs ++
  "\n\n✅ REAL ANALYSIS COMPLETED: This analysis used actual dual-pipe network design,\n   pandapipes hydraulic simulation, and interactive map generation from street_final_copy_3.\n"

def cmpSummaryText (street_name hp_scenario hp_result dh_result : String) : String :=
  "\n=== COMPREHENSIVE SCENARIO COMPARISON ===\nStreet: " ++
  street_name ++
  "\nHP Scenario: " ++
  hp_scenario ++
  "\n\n🔌 HEAT PUMP (DECENTRALIZED) ANALYSIS:\n" ++
  hp_result ++
  "\n\n🔥 DISTRICT HEATING (CENTRALIZED) ANALYSIS:\n" ++
  dh_result ++
  "\n\n⚖️ COMPARISON SUMMARY:\n• Heat Pumps: Individual building solutions with electrical infrastructure requirements\n• District Heating: Centralized network solution with thermal infrastructure\n• Both: Street-following routing for construction feasibility\n• Both: Comprehensive simulation and analysis completed\n\n📊 RECOMMENDATION:\nThe choice between HP and DH depends on:\n1. Electrical infrastructure capacity (HP requirement)\n2. Thermal infrastructure investment (DH requirement)\n3. Building density and heat demand patterns\n4. Local energy prices and policy preferences\n\nBoth solutions are technically feasible for " ++
  street_name ++
  " with proper infrastructure planning.\n\n💡 NOTE: This is a demonstration of the enhanced agent system integration.\n   The full implementation would include actual comprehensive analysis\n   with real power flow and hydraulic simulations.\n"

/-! ## Claim C2 -/

/-- C2: dashboard rendering is deterministic.  Each dashboard is a pure
function of the metrics, street name, scenario label, map file name and
the formatted analysis date; rendering factors as a fixed prefix, the
date string, and a fixed suffix, where prefix and suffix do not depend on
the date — so for a fixed date two renderings are byte-identical, and the
embedded timestamp affects nothing but the documented `Analysis Date`
field. -/
theorem c2_dashboard_rendering_deterministic :
    (∀ (street_name scenario : String) (stats : HpStats) (dateStr mapBase : String),
      hpDashboardHtml street_name scenario stats dateStr mapBase =
        hpDashboardPre street_name scenario stats mapBase ++ dateStr ++
          hpDashboardSuf street_name scenario stats mapBase) ∧
    (∀ (street_name : String) (ns : DhNetworkStats) (sim : DhSimResults) (n : ℕ)
        (dateStr : String) (mapBase : Option String),
      dhDashboardHtml street_name ns sim n dateStr mapBase =
        dhDashboardPre street_name ns sim n mapBase ++ dateStr ++
          dhDashboardSuf street_name ns sim n mapBase) ∧
    (∀ (street_name scenario : String) (stats : HpStats) (d1 d2 mapBase : String),
      d1 = d2 →
      hpDashboardHtml street_name scenario stats d1 mapBase =
        hpDashboardHtml street_name scenario stats d2 mapBase) := by
  refine ⟨?_, ?_, ?_⟩
  · intro street_name scenario stats dateStr mapBase
    simp only [hpDashboardHtml, hpDashboardPre, hpDashboardSuf, String.append_assoc]
  · intro street_name ns sim n dateStr mapBase
    simp only [dhDashboardHtml, dhDashboardPre, dhDashboardSuf, String.append_assoc]
  · intro street_name scenario stats d1 d2 mapBase h
    rw [h]

/-- C2 (witness): the determinism conjunct applied at a concrete street,
scenario, stats record and date. -/
theorem c2_dashboard_rendering_deterministic_witness :
    hpDashboardHtml "Parkstraße" "winter_werktag_abendspitze" ⟨0, 1, 0, 0, 3⟩
        "June 01, 2025" "hp_feasibility_map.html" =
      hpDashboardHtml "Parkstraße" "winter_werktag_abendspitze" ⟨0, 1, 0, 0, 3⟩
        "June 01, 2025" "hp_feasibility_map.html" :=
  c2_dashboard_rendering_deterministic.2.2 "Parkstraße" "winter_werktag_abendspitze"
    ⟨0, 1, 0, 0, 3⟩ "June 01, 2025" "June 01, 2025" "hp_feasibility_map.html" rfl

/-! ## The comprehensive analysis tools as environment machines

Each fallible external step (file reads/writes, the external
collaborators) is an input of the environment; an `Except.error` input
models that step raising, which the tool's blanket `try/except` converts
into an `"Error in comprehensive ..."` string. -/

/-- The hardcoded fallback `network_stats` dict substituted when
`dual_network_stats_dh_analysis_<street>.json` does not exist
(lines 731-740). -/
def fallbackDhStats (n : ℕ) : DhNetworkStats where
  total_supply_length_km := some (92 / 100)
  total_return_length_km := some (92 / 100)
  total_main_length_km := some (184 / 100)
  total_service_length_m := some ((n : ℚ) * 50)
  num_buildings := some n
  service_connections := some (n * 2)
  total_heat_demand_mwh := some ((n : ℚ) * 10)
  network_density_km_per_building := some (184 / 100 / (n : ℚ))

/-- The hardcoded fallback `simulation_results` dict substituted when
`pandapipes_simulation_results_dh_analysis_<street>.json` does not exist
(lines 748-753). -/
def fallbackDhSim (n : ℕ) : DhSimResults where
  pressure_drop_bar := some (25 / 1000000)
  total_flow_kg_per_s := some ((n : ℚ) * (1 / 10))
  temperature_drop_c := some 30
  hydraulic_success := some true

/-- Environment of one `run_comprehensive_hp_analysis` invocation: the
outcome of each external step it performs, in program order. -/
structure HpEnv where
  modulesAvailable : Bool
  loadBuildings : Except String (List HpBuilding)
  powerMetrics : Except String (List (String × PowerMetric))
  chartsStep : Except String Unit
  dashboardWrite : Except String Unit
  dateStr : String
  dashboardAbs : String

/-- `run_comprehensive_hp_analysis`: module check, load, street filter
(empty → informational string), external power metrics, merge, stats,
charts, dashboard write, then the summary text; any step modelled as
raising is caught by the blanket handler and rendered as
`"Error in comprehensive HP analysis: ..."`. -/
def run_comprehensive_hp_analysis (env : HpEnv) (street_name scenario : String) : String :=
  if env.modulesAvailable = false then
    "Error: Required modules from street_final_copy_3 are not available."
  else
    match env.loadBuildings with
    | .error e => "Error in comprehensive HP analysis: " ++ e
    | .ok buildings =>
      let street_buildings := hpFilterBuildings buildings street_name
      if street_buildings.length = 0 then
        "No buildings found for street: " ++ street_name
      else
        match env.powerMetrics with
        | .error e => "Error in comprehensive HP analysis: " ++ e
        | .ok power_metrics =>
          let rows := mergeMetrics power_metrics 0 street_buildings
          let stats := hpStatsOf rows street_buildings
          match env.chartsStep with
          | .error e => "Error in comprehensive HP analysis: " ++ e
          | .ok _ =>
            match env.dashboardWrite with
            | .error e => "Error in comprehensive HP analysis: " ++ e
            | .ok _ =>
              hpSummaryText street_name scenario stats
                (statMean (street_buildings.map (·.dist_to_substation)) 0)
                street_buildings.length 2
                "results_test/hp_analysis/hp_feasibility_map.html"
                "results_test/hp_analysis/hp_feasibility_dashboard.html"
                "results_test/hp_analysis" env.dashboardAbs

/-- Environment of one `run_comprehensive_dh_analysis` invocation.
`mapStep` is the inner `try/except` around the dual-pipe map creation —
its failure is only printed, never reported; `statsFile` / `simFile` are
`none` when the corresponding JSON file does not exist after the network
step. -/
structure DhEnv where
  modulesAvailable : Bool
  loadBuildings : Except String (List HpBuilding)
  writeBuildings : Except String Unit
  mapStep : Except String Unit
  statsFile : Option DhNetworkStats
  simFile : Option DhSimResults
  dashboardWrite : Except String Unit
  dateStr : String
  dashboardAbs : String

/-- `run_comprehensive_dh_analysis`: module check, load, street filter,
buildings write, map creation (failure swallowed), stats/simulation files
with hardcoded fallbacks, dashboard write, then the summary text. -/
def run_comprehensive_dh_analysis (env : DhEnv) (street_name : String) : String :=
  if env.modulesAvailable = false then
    "Error: Required modules from street_final_copy_3 are not available."
  else
    match env.loadBuildings with
    | .error e => "Error in comprehensive DH analysis: " ++ e
    | .ok buildings =>
      let street_buildings := hpFilterBuildings buildings street_name
      if street_buildings.length = 0 then
        "No buildings found for street: " ++ street_name
      else
        match env.writeBuildings with
        | .error e => "Error in comprehensive DH analysis: " ++ e
        | .ok _ =>
          let network_stats := env.statsFile.getD (fallbackDhStats street_buildings.length)
          let simulation_results := env.simFile.getD (fallbackDhSim street_buildings.length)
          match env.dashboardWrite with
          | .error e => "Error in comprehensive DH analysis: " ++ e
          | .ok _ =>
            dhSummaryText street_name network_stats simulation_results
              street_buildings.length
              ("results_test/dh_analysis/dh_dashboard_" ++ pyUnderscore street_name ++ ".html")
              "results_test/dh_analysis" env.dashboardAbs

/-- `compare_comprehensive_scenarios`: run both analyses and embed their
result strings into the fixed comparison template. -/
def compare_comprehensive_scenarios (hpEnv : HpEnv) (dhEnv : DhEnv)
    (street_name hp_scenario : String) : String :=
  cmpSummaryText street_name hp_scenario
    (run_comprehensive_hp_analysis hpEnv street_name hp_scenario)
    (run_comprehensive_dh_analysis dhEnv street_name)

/-! ## Helper lemmas: string prefixes under append -/

lemma listStarts_append_of_true {p a : List Char} (b : List Char)
    (h : listStarts p a = true) : listStarts p (a ++ b) = true := by
  induction p generalizing a with
  | nil => simp [listStarts]
  | cons x ps ih =>
    cases a with
    | nil => simp [listStarts] at h
    | cons c cs =>
      simp only [listStarts, Bool.and_eq_true] at h
      simp only [List.cons_append, listStarts, Bool.and_eq_true]
      exact ⟨h.1, ih h.2⟩

lemma listStarts_append_of_false {p a : List Char} (b : List Char)
    (hlen : p.length ≤ a.length) (h : listStarts p a = false) :
    listStarts p (a ++ b) = false := by
  induction p generalizing a with
  | nil => simp [listStarts] at h
  | cons x ps ih =>
    cases a with
    | nil => simp at hlen
    | cons c cs =>
      simp only [List.cons_append, listStarts]
      by_cases hx : x == c
      · simp only [listStarts, hx, Bool.true_and] at h
        simp only [hx, Bool.true_and]
        exact ih (by simpa using hlen) h
      · simp only [hx, Bool.false_and]

lemma strStarts_append_true {a p : String} (b : String)
    (h : strStarts a p = true) : strStarts (a ++ b) p = true := by
  unfold strStarts at h ⊢
  rw [String.data_append]
  exact listStarts_append_of_true _ h

lemma strStarts_append_false {a p : String} (b : String)
    (hlen : p.data.length ≤ a.data.length) (h : strStarts a p = false) :
    strStarts (a ++ b) p = false := by
  unfold strStarts at h ⊢
  rw [String.data_append]
  exact listStarts_append_of_false _ hlen h
def cmpBeforeHp (street_name hp_scenario : String) : String :=
  "\n=== COMPREHENSIVE SCENARIO COMPARISON ===\nStreet: " ++
  street_name ++
  "\nHP Scenario: " ++
  hp_scenario ++
  "\n\n🔌 HEAT PUMP (DECENTRALIZED) ANALYSIS:\n"

def cmpBetweenResults : String :=
  "\n\n🔥 DISTRICT HEATING (CENTRALIZED) ANALYSIS:\n"

def cmpAfterDh (street_name : String) : String :=
  "\n\n⚖️ COMPARISON SUMMARY:\n• Heat Pumps: Individual building solutions with electrical infrastructure requirements\n• District Heating: Centralized network solution with thermal infrastructure\n• Both: Street-following routing for construction feasibility\n• Both: Comprehensive simulation and analysis completed\n\n📊 RECOMMENDATION:\nThe choice between HP and DH depends on:\n1. Electrical infrastructure capacity (HP requirement)\n2. Thermal infrastructure investment (DH requirement)\n3. Building density and heat demand patterns\n4. Local energy prices and policy preferences\n\nBoth solutions are technically feasible for " ++
  street_name ++
  " with proper infrastructure planning.\n\n💡 NOTE: This is a demonstration of the enhanced agent system integration.\n   The full implementation would include actual comprehensive analysis\n   with real power flow and hydraulic simulations.\n"

/-! ## Claim C7 -/

/-- A concrete DH environment in which map creation fails and both the
network-statistics and simulation-results files are absent after the
network step. -/
def dhEnvFallbackExample : DhEnv where
  modulesAvailable := true
  loadBuildings := .ok [⟨.ok [⟨some "a"⟩], some "B1", none, none, none, none⟩]
  writeBuildings := .ok ()
  mapStep := .error "map creation failed"
  statsFile := none
  simFile := none
  dashboardWrite := .ok ()
  dateStr := "June 01, 2025"
  dashboardAbs := "/work/results_test/dh_analysis/dh_dashboard_a.html"

/-- C7 (counterexample): in an invocation where producing the output
artifacts fails — the map step raises (swallowed by the inner handler)
and the expected network-statistics and simulation-results files are
absent after the network step — the DH analysis still returns the
success-formatted summary built from hardcoded fallback values, with no
`"Error"` prefix: the failure is silently treated as success,
contradicting the claim. -/
theorem c7_counterexample :
    run_comprehensive_dh_analysis dhEnvFallbackExample "a" =
      dhSummaryText "a" (fallbackDhStats 1) (fallbackDhSim 1) 1
        "results_test/dh_analysis/dh_dashboard_a.html"
        "results_test/dh_analysis" "/work/results_test/dh_analysis/dh_dashboard_a.html" ∧
    strStarts (run_comprehensive_dh_analysis dhEnvFallbackExample "a") "Error" = false := by
  constructor
  · rfl
  · decide

/-- C7 (amended): when the map step fails and the network-statistics and
simulation-results files are absent after the network step, the DH
analysis substitutes the hardcoded fallback values and returns a
success-formatted summary (no `"Error"` prefix) — it does **not** report
an error; an error string is produced only when a step modelled as
raising reaches the blanket handler, e.g. when loading the buildings
file fails. -/
theorem c7_artifact_failure_not_reported (env : DhEnv) (street : String)
    (bs : List HpBuilding) (e : String) :
    (env.modulesAvailable = true →
      env.loadBuildings = .ok bs →
      env.writeBuildings = .ok () →
      env.mapStep = .error e →
      env.statsFile = none →
      env.simFile = none →
      env.dashboardWrite = .ok () →
      (hpFilterBuildings bs street).length ≠ 0 →
      run_comprehensive_dh_analysis env street =
        dhSummaryText street (fallbackDhStats (hpFilterBuildings bs street).length)
          (fallbackDhSim (hpFilterBuildings bs street).length)
          (hpFilterBuildings bs street).length
          ("results_test/dh_analysis/dh_dashboard_" ++ pyUnderscore street ++ ".html")
          "results_test/dh_analysis" env.dashboardAbs ∧
      strStarts (run_comprehensive_dh_analysis env street) "Error" = false) ∧
    (env.modulesAvailable = true →
      env.loadBuildings = .error e →
      strStarts (run_comprehensive_dh_analysis env street) "Error" = true) := by
  constructor
  · intro h1 h2 h3 _h4 h5 h6 h7 h8
    have hrun : run_comprehensive_dh_analysis env street =
        dhSummaryText street (fallbackDhStats (hpFilterBuildings bs street).length)
          (fallbackDhSim (hpFilterBuildings bs street).length)
          (hpFilterBuildings bs street).length
          ("results_test/dh_analysis/dh_dashboard_" ++ pyUnderscore street ++ ".html")
          "results_test/dh_analysis" env.dashboardAbs := by
      unfold run_comprehensive_dh_analysis
      rw [h1, h2, h3, h5, h6, h7]
      simp only [Bool.true_eq_false, if_false, if_neg h8, Option.getD_none]
    refine ⟨hrun, ?_⟩
    rw [hrun]
    simp only [dhSummaryText, String.append_assoc]
    exact strStarts_append_false _ (by decide) (by decide)
  · intro h1 h2
    unfold run_comprehensive_dh_analysis
    rw [h1, h2]
    simp only [Bool.true_eq_false, if_false]
    exact strStarts_append_true _ (by decide)

/-- C7 (witness): the amended theorem applied at the concrete failing
environment. -/
theorem c7_artifact_failure_not_reported_witness :
    strStarts (run_comprehensive_dh_analysis dhEnvFallbackExample "a") "Error" = false :=
  ((c7_artifact_failure_not_reported dhEnvFallbackExample "a"
      [⟨.ok [⟨some "a"⟩], some "B1", none, none, none, none⟩] "map creation failed").1
    rfl rfl rfl rfl rfl rfl rfl (by decide)).2

/-! ## Claim C8 -/

/-- C8 (counterexample): on a malformed data file, `get_all_street_names`
propagates the `json.JSONDecodeError` (only `FileNotFoundError` is
caught), so an exception does reach the caller, contradicting the claim
that no tool ever propagates an exception. -/
theorem c8_counterexample :
    get_all_street_names LoadResult.malformed =
      Except.error "json.JSONDecodeError: the main data file is not valid JSON" := rfl

/-- C8 (amended): the comprehensive analysis tools wrap their bodies in a
blanket handler and always return a string, error cases carrying the
`"Error"` prefix; the two street lookup tools handle only the missing
data file (returning a one-element `"Error: ..."` list) and propagate any
other exception, such as a JSON decode error. -/
theorem c8_error_envelope (env : HpEnv) (denv : DhEnv)
    (street scenario e : String) :
    get_all_street_names .notFound =
      .ok ["Error: The main data file was not found at the specified path."] ∧
    get_building_ids_for_street .notFound street =
      .ok ["Error: The main data file was not found at the specified path."] ∧
    get_building_ids_for_street .malformed street =
      .error "json.JSONDecodeError: the main data file is not valid JSON" ∧
    (env.modulesAvailable = true → env.loadBuildings = .error e →
      strStarts (run_comprehensive_hp_analysis env street scenario) "Error" = true) ∧
    (denv.modulesAvailable = false →
      strStarts (run_comprehensive_dh_analysis denv street) "Error" = true) := by
  refine ⟨rfl, rfl, rfl, ?_, ?_⟩
  · intro h1 h2
    unfold run_comprehensive_hp_analysis
    rw [h1, h2]
    simp only [Bool.true_eq_false, if_false]
    exact strStarts_append_true _ (by decide)
  · intro h1
    unfold run_comprehensive_dh_analysis
    rw [h1]
    simp only [if_true]
    decide

/-- C8 (witness): the amended envelope statements applied at concrete
environments. -/
theorem c8_error_envelope_witness :
    strStarts (run_comprehensive_hp_analysis
      ⟨true, .error "open failure", .ok [], .ok (), .ok (), "d", "p"⟩ "a" "s") "Error"
        = true ∧
    strStarts (run_comprehensive_dh_analysis
      ⟨false, .ok [], .ok (), .ok (), none, none, .ok (), "d", "p"⟩ "a") "Error" = true := by
  constructor
  · exact (c8_error_envelope ⟨true, .error "open failure", .ok [], .ok (), .ok (), "d", "p"⟩
      ⟨false, .ok [], .ok (), .ok (), none, none, .ok (), "d", "p"⟩ "a" "s"
      "open failure").2.2.2.1 rfl rfl
  · exact (c8_error_envelope ⟨true, .error "open failure", .ok [], .ok (), .ok (), "d", "p"⟩
      ⟨false, .ok [], .ok (), .ok (), none, none, .ok (), "d", "p"⟩ "a" "s"
      "open failure").2.2.2.2 rfl

/-! ## Claim C10 -/

/-- C10: the scenario comparison never propagates a sub-analysis failure
as its own error result: for every pair of environments it returns the
fixed comparison template with the two sub-analysis result strings (error
strings included) embedded verbatim and contiguously, and its own return
value never starts with the `"Error"` marker — the marker can only occur
inside the embedded sections. -/
theorem c10_comparison_embeds_suberrors :
    ∀ (hpEnv : HpEnv) (dhEnv : DhEnv) (street_name hp_scenario : String),
      compare_comprehensive_scenarios hpEnv dhEnv street_name hp_scenario =
        cmpBeforeHp street_name hp_scenario ++
          run_comprehensive_hp_analysis hpEnv street_name hp_scenario ++
          cmpBetweenResults ++
          run_comprehensive_dh_analysis dhEnv street_name ++
          cmpAfterDh street_name ∧
      strStarts (compare_comprehensive_scenarios hpEnv dhEnv street_name hp_scenario)
        "Error" = false := by
  intro hpEnv dhEnv street_name hp_scenario
  constructor
  · simp only [compare_comprehensive_scenarios, cmpSummaryText, cmpBeforeHp,
      cmpBetweenResults, cmpAfterDh, String.append_assoc]
  · simp only [compare_comprehensive_scenarios, cmpSummaryText, String.append_assoc]
    exact strStarts_append_false _ (by decide) (by decide)
